import Mathlib

/-!
Resource services, interactive console and command handlers of aws-resources: a shallow
embedding of `pkg/services` (`base.go`, `s3.go`, `ec2.go`) and of `pkg/cli` (`app.go`, `s3.go`,
`ec2.go`), followed by the properties proved about it.

* A Go `map[string]interface{}` is an association list read with `List.lookup`.
* A Go `interface{}` value is a `Value`; the untyped `nil` is `Value.nil`.
* The provider client is a function from the request to `Except String _`, the
  `String` being the text of the returned `error` (`err.Error()`).
* `CreateResource` returns its two Go results (`*ResourceResult`, `error`) as two
  `Option`s, together with the list of requests it handed to the provider.
* Go `int` is 64 bits wide; `int32(_)` wraps modulo `2^32`.
* A runtime panic is a flag of the outcome: a call that panics returns neither result nor
  error.
* The console is the transition function `Model.Update` on an explicit state; the event loop
  is `Model.feed`, a fold of `Update` over the messages received.
* A command handler returns a record of what the process did: exit status, services
  constructed, parameter map, result printed.
-/

namespace AwsResources

/-! ## Data model -/

/-- A dynamically typed Go value stored in an `interface{}`. `other` stands for a value of
any dynamic type that is none of `string`, `int` and `[]map[string]interface{}`. -/
inductive Value where
  | nil
  | str (s : String)
  | int (n : Int)
  | mapSlice (ms : List (List (String × String)))
  | other (goType : String)
  deriving DecidableEq, Repr

/-- Parameter map `map[string]interface{}`. -/
abbrev Params := List (String × Value)

/-- ResourceResult of `base.go`; an unset `Data` map is `none`, an unset string is `""`. -/
structure ResourceResult where
  Success : Bool := false
  Message : String := ""
  Data : Option (List (String × Value)) := none
  Error : String := ""
  deriving DecidableEq, Repr

/-- BaseService of `base.go`. -/
structure BaseService where
  Region : String
  deriving DecidableEq, Repr

/-- NewBaseService of `base.go`. -/
def NewBaseService (region : String) : BaseService :=
  { Region := region }

/-- The comma-ok type assertion `v.(string)` on the result of a map read. -/
def assertString : Option Value → Option String
  | some (Value.str s) => some s
  | _ => none

/-- Formatting of a `[]string` with the verb `%v`: the elements separated by one blank,
between square brackets. -/
def fmtStrings (xs : List String) : String :=
  "[" ++ " ".intercalate xs ++ "]"

/-- The condition `!exists || value == nil || value == ""` of `ValidateRequiredParams`. -/
def paramMissing (params : Params) (param : String) : Bool :=
  match params.lookup param with
  | none => true
  | some value => value == Value.nil || value == Value.str ""

/-- The loop of `ValidateRequiredParams`: the slice `missing` after ranging over `required`. -/
def collectMissing (params : Params) (required : List String) : List String :=
  required.foldl (fun missing param =>
    if paramMissing params param then missing ++ [param] else missing) []

/-- ValidateRequiredParams of `base.go`; `none` is the `nil` error, `some msg` an error with
text `msg`. -/
def BaseService.ValidateRequiredParams (_b : BaseService) (params : Params)
    (required : List String) : Option String :=
  let missing := collectMissing params required
  if missing.length > 0 then
    some ("missing required parameters: " ++ fmtStrings missing)
  else
    none

/-- containsError of `s3.go`. -/
def containsError (errorMsg errorType : String) : Bool :=
  decide (errorMsg.length > 0) && decide (errorType.length > 0)

/-! ## Bucket service -/

/-- The part of `types.CreateBucketConfiguration` the service sets. -/
structure CreateBucketConfiguration where
  LocationConstraint : String
  deriving DecidableEq, Repr

/-- The part of `s3.CreateBucketInput` the service sets; pointers are `Option`s. -/
structure CreateBucketInput where
  Bucket : Option String
  CreateBucketConfiguration : Option CreateBucketConfiguration := none
  deriving DecidableEq, Repr

/-- The part of `s3.CreateBucketOutput` the service reads. -/
structure CreateBucketOutput where
  Location : Option String
  deriving DecidableEq, Repr

/-- The call `client.CreateBucket(ctx, input)`. -/
abbrev S3Client := CreateBucketInput → Except String CreateBucketOutput

/-- S3Service of `s3.go`. -/
structure S3Service extends BaseService where
  client : S3Client

/-- NewS3Service of `s3.go`; `loadDefaultConfig` is the SDK configuration loader followed
by `s3.NewFromConfig`. -/
def NewS3Service (loadDefaultConfig : String → Except String S3Client) (region : String) :
    Except String S3Service :=
  match loadDefaultConfig region with
  | .error err => .error ("failed to load AWS config: " ++ err)
  | .ok client => .ok { toBaseService := NewBaseService region, client := client }

/-- `aws.ToString`: the pointed-to string, `""` for a nil pointer. -/
def awsToString : Option String → String
  | some s => s
  | none => ""

/-- What a call of `S3Service.CreateResource` yields: the two Go results and the requests
handed to the provider, in order. -/
structure S3Outcome where
  result : Option ResourceResult
  err : Option String
  calls : List CreateBucketInput
  deriving DecidableEq, Repr

/-- The region a call targets: the params `region` when it is a non-empty string, else the
region of the service (`s3.go` lines 47-50, `ec2.go` lines 88-90). -/
def targetRegionOf (bound : String) (params : Params) : String :=
  match assertString (params.lookup "region") with
  | some region => if region ≠ "" then region else bound
  | none => bound

/-- The CreateBucket request of `s3.go` lines 62-71. -/
def bucketInput (bucketName targetRegion : String) : CreateBucketInput :=
  { Bucket := some bucketName
    CreateBucketConfiguration :=
      if targetRegion ≠ "" ∧ targetRegion ≠ "us-east-1" then
        some { LocationConstraint := targetRegion }
      else
        none }

/-- S3Service.CreateResource of `s3.go`. -/
def S3Service.CreateResource (s : S3Service) (params : Params) : S3Outcome :=
  match assertString (params.lookup "bucket_name") with
  | none =>
    { result := some { Success := false, Error := "invalid bucket_name parameter",
                       Message := "bucket_name must be a string" },
      err := none, calls := [] }
  | some bucketName =>
    let targetRegion := targetRegionOf s.Region params
    match s.toBaseService.ValidateRequiredParams params ["bucket_name"] with
    | some err =>
      { result := some { Success := false, Error := "ValidationError", Message := err },
        err := none, calls := [] }
    | none =>
      let input := bucketInput bucketName targetRegion
      match s.client input with
      | .error errorMsg =>
        let errorCode := "UnknownError"
        if containsError errorMsg "BucketAlreadyExists" then
          { result := some { Success := false, Error := "BucketAlreadyExists",
                             Message := "Bucket '" ++ bucketName ++
                               "' already exists and is owned by another account" },
            err := none, calls := [input] }
        else if containsError errorMsg "BucketAlreadyOwnedByYou" then
          { result := some { Success := false, Error := "BucketAlreadyOwnedByYou",
                             Message := "Bucket '" ++ bucketName ++
                               "' already exists and is owned by you" },
            err := none, calls := [input] }
        else
          { result := some { Success := false, Error := errorCode,
                             Message := "Failed to create bucket: " ++ errorMsg },
            err := none, calls := [input] }
      | .ok result =>
        { result := some { Success := true,
                           Message := "Successfully created S3 bucket '" ++ bucketName ++
                             "' in region '" ++ targetRegion ++ "'",
                           Data := some [("bucket_name", Value.str bucketName),
                                         ("region", Value.str targetRegion),
                                         ("location", Value.str (awsToString result.Location))] },
          err := none, calls := [input] }

/-! ## Instance service -/

/-- Digit value of a decimal digit character. -/
def digitVal (c : Char) : Option Nat :=
  if '0' ≤ c ∧ c ≤ '9' then some (c.toNat - '0'.toNat) else none

/-- Value of a run of decimal digits, most significant first; `none` on any other character. -/
def parseDigits : List Char → Nat → Option Nat
  | [], acc => some acc
  | c :: cs, acc =>
    match digitVal c with
    | some d => parseDigits cs (acc * 10 + d)
    | none => none

/-- The library function `strconv.Atoi` on a 64-bit platform: an optional sign followed by at
least one decimal digit, the value within the range of `int`; `none` when it returns an
error. -/
def Atoi (s : String) : Option Int :=
  let signed : Bool × List Char :=
    match s.data with
    | '-' :: rest => (true, rest)
    | '+' :: rest => (false, rest)
    | rest => (false, rest)
  if signed.2.isEmpty then none
  else
    match parseDigits signed.2 0 with
    | none => none
    | some n =>
      let v : Int := if signed.1 then -(n : Int) else (n : Int)
      if -(2 : Int) ^ 63 ≤ v ∧ v < (2 : Int) ^ 63 then some v else none

/-- The value range of the Go type `int` (64 bits). -/
def isGoInt (n : Int) : Prop := -(2 : Int) ^ 63 ≤ n ∧ n < (2 : Int) ^ 63

instance (n : Int) : Decidable (isGoInt n) := by unfold isGoInt; infer_instance

/-- The conversion `int32(n)`: the low 32 bits, read as a signed number. -/
def toInt32 (n : Int) : Int :=
  (n + (2 : Int) ^ 31) % (2 : Int) ^ 32 - (2 : Int) ^ 31

/-- The part of `ec2.RunInstancesInput` the service sets; pointers are `Option`s. -/
structure RunInstancesInput where
  ImageId : Option String
  MinCount : Option Int
  MaxCount : Option Int
  InstanceType : String
  KeyName : Option String
  deriving DecidableEq, Repr

/-- The part of `types.InstanceState` the service reads. -/
structure InstanceState where
  Name : String
  deriving DecidableEq, Repr

/-- The part of `types.Instance` the service reads; every pointer field, `State` included, is
an `Option`. -/
structure Instance where
  InstanceId : Option String
  State : Option InstanceState
  ImageId : Option String
  InstanceType : String
  KeyName : Option String
  deriving DecidableEq, Repr

/-- The part of `ec2.RunInstancesOutput` the service reads. -/
structure RunInstancesOutput where
  Instances : List Instance
  deriving DecidableEq, Repr

/-- The call `client.RunInstances(ctx, input)`. -/
abbrev EC2Client := RunInstancesInput → Except String RunInstancesOutput

/-- EC2Service of `ec2.go`. -/
structure EC2Service extends BaseService where
  client : EC2Client

/-- NewEC2Service of `ec2.go`; `loadDefaultConfig` is the SDK configuration loader followed
by `ec2.NewFromConfig`. -/
def NewEC2Service (loadDefaultConfig : String → Except String EC2Client) (region : String) :
    Except String EC2Service :=
  match loadDefaultConfig region with
  | .error err => .error ("failed to load AWS config: " ++ err)
  | .ok client => .ok { toBaseService := NewBaseService region, client := client }

/-- What a call of `EC2Service.CreateResource` yields: the two Go results, the requests
handed to the provider, and the client the service holds afterwards. When `panicked` is set
the call did not return: it aborted with a runtime panic (a nil pointer dereference), and
`result` and `err` are both `none`. -/
structure EC2Outcome where
  result : Option ResourceResult
  err : Option String
  calls : List RunInstancesInput
  client : EC2Client
  panicked : Bool := false

/-- The count of `ec2.go` lines 66-76. -/
def resolveCount (params : Params) : Int :=
  match params.lookup "count" with
  | some (Value.int v) => v
  | some (Value.str v) =>
    match Atoi v with
    | some parsed => parsed
    | none => 1
  | _ => 1

/-- The RunInstances request of `ec2.go` lines 114-120. -/
def runInput (imageID instanceType keyName : String) (count : Int) : RunInstancesInput :=
  { ImageId := some imageID
    MinCount := some (toInt32 count)
    MaxCount := some (toInt32 count)
    InstanceType := instanceType
    KeyName := some keyName }

/-- The per-instance maps of `ec2.go` lines 153-162, built in order. The expression
`instance.State.Name` dereferences the pointer `State` without a nil check: the loop panics at
the first instance whose `State` is nil, which is the result `none`. -/
def instanceMaps : List Instance → Option (List (List (String × String)))
  | [] => some []
  | inst :: rest =>
    match inst.State with
    | none => none
    | some state =>
      match instanceMaps rest with
      | none => none
      | some maps =>
        some ([("instance_id", awsToString inst.InstanceId),
               ("state", state.Name),
               ("image_id", awsToString inst.ImageId),
               ("instance_type", inst.InstanceType),
               ("key_name", awsToString inst.KeyName)] :: maps)

/-- The tail of `EC2Service.CreateResource` from the required-field check on (`ec2.go` lines
104-175), run with the client `client` that the region handling left in the service. -/
def ec2Launch (b : BaseService) (client : EC2Client) (params : Params)
    (imageID instanceType keyName : String) (count : Int) (targetRegion : String) : EC2Outcome :=
  match b.ValidateRequiredParams params ["image_id", "instance_type", "key_name"] with
  | some err =>
    { result := some { Success := false, Error := "ValidationError", Message := err },
      err := none, calls := [], client := client }
  | none =>
    let input := runInput imageID instanceType keyName count
    match client input with
    | .error errorMsg =>
      let errorCode := "UnknownError"
      if containsError errorMsg "InvalidAMIID" then
        { result := some { Success := false, Error := "InvalidAMIID",
                           Message := "Invalid AMI ID: " ++ imageID },
          err := none, calls := [input], client := client }
      else if containsError errorMsg "InvalidKeyPair" then
        { result := some { Success := false, Error := "InvalidKeyPair",
                           Message := "Invalid key pair: " ++ keyName },
          err := none, calls := [input], client := client }
      else
        { result := some { Success := false, Error := errorCode,
                           Message := "Failed to launch instances: " ++ errorMsg },
          err := none, calls := [input], client := client }
    | .ok result =>
      match instanceMaps result.Instances with
      | none =>
        { result := none, err := none, calls := [input], client := client, panicked := true }
      | some instances =>
        { result := some { Success := true,
                           Message := "Successfully launched " ++ toString count ++
                             " EC2 instance(s) in region '" ++ targetRegion ++ "'",
                           Data := some [("instances", Value.mapSlice instances),
                                         ("region", Value.str targetRegion),
                                         ("image_id", Value.str imageID),
                                         ("instance_type", Value.str instanceType),
                                         ("key_name", Value.str keyName),
                                         ("count", Value.int count)] },
          err := none, calls := [input], client := client }

/-- EC2Service.CreateResource of `ec2.go`; `loadDefaultConfig` is the SDK configuration loader
followed by `ec2.NewFromConfig`, which the region override calls. -/
def EC2Service.CreateResource (loadDefaultConfig : String → Except String EC2Client)
    (e : EC2Service) (params : Params) : EC2Outcome :=
  match assertString (params.lookup "image_id") with
  | none =>
    { result := some { Success := false, Error := "invalid image_id parameter",
                       Message := "image_id must be a string" },
      err := none, calls := [], client := e.client }
  | some imageID =>
    match assertString (params.lookup "instance_type") with
    | none =>
      { result := some { Success := false, Error := "invalid instance_type parameter",
                         Message := "instance_type must be a string" },
        err := none, calls := [], client := e.client }
    | some instanceType =>
      match assertString (params.lookup "key_name") with
      | none =>
        { result := some { Success := false, Error := "invalid key_name parameter",
                           Message := "key_name must be a string" },
          err := none, calls := [], client := e.client }
      | some keyName =>
        let count := resolveCount params
        if count < 1 then
          { result := some { Success := false, Error := "ValidationError",
                             Message := "Count must be at least 1" },
            err := none, calls := [], client := e.client }
        else
          match assertString (params.lookup "region") with
          | some region =>
            if region ≠ "" then
              let targetRegion := region
              match loadDefaultConfig targetRegion with
              | .error err =>
                { result := some { Success := false, Error := "ConfigurationError",
                                   Message := "Failed to configure AWS client for region " ++
                                     targetRegion ++ ": " ++ err },
                  err := none, calls := [], client := e.client }
              | .ok client =>
                ec2Launch e.toBaseService client params imageID instanceType keyName count
                  targetRegion
            else
              ec2Launch e.toBaseService e.client params imageID instanceType keyName count
                e.Region
          | none =>
            ec2Launch e.toBaseService e.client params imageID instanceType keyName count
              e.Region

/-! ## Sample providers, for evaluating the services on concrete requests -/

/-- A bucket provider that accepts every request and returns the locator `location`. -/
def s3Accepting (location : Option String) : S3Client :=
  fun _ => .ok { Location := location }

/-- A bucket provider that fails every request with the error text `m`. -/
def s3Failing (m : String) : S3Client :=
  fun _ => .error m

/-- An instance provider that accepts every request and reports the instances `is`. -/
def ec2Accepting (is : List Instance) : EC2Client :=
  fun _ => .ok { Instances := is }

/-- An instance provider that fails every request with the error text `m`. -/
def ec2Failing (m : String) : EC2Client :=
  fun _ => .error m

/-- A configuration loader that fails for every region with the error text `m`. -/
def configFailing (m : String) : String → Except String EC2Client :=
  fun _ => .error m

/-- A configuration loader that yields the client `client` for every region. -/
def configYielding (client : EC2Client) : String → Except String EC2Client :=
  fun _ => .ok client

/-- A bucket configuration loader that fails for every region with the error text `m`. -/
def s3ConfigFailing (m : String) : String → Except String S3Client :=
  fun _ => .error m

/-- A bucket configuration loader that yields the client `client` for every region. -/
def s3ConfigYielding (client : S3Client) : String → Except String S3Client :=
  fun _ => .ok client

/-! ## Interactive console (`pkg/cli/app.go`)

A `tea.KeyMsg` is represented by its `String()`. A `tea.Cmd` is represented by the constructor
that names it; the two create commands capture the model they were built from, as the Go
closures do. Text buffers hold one-byte characters: only keys of length 1 are ever appended. -/

/-- Screen of `app.go`. -/
inductive Screen where
  | MainMenu
  | S3Menu
  | EC2Menu
  | S3CreateBucket
  | EC2CreateInstances
  | ResultScreen
  deriving DecidableEq, Repr

/-- Model of `app.go`. -/
structure Model where
  screen : Screen
  cursor : Int
  choices : List String
  selected : List Int
  width : Int
  height : Int
  result : Option ResourceResult
  errorMsg : String
  bucketName : String
  region : String
  imageID : String
  instanceType : String
  keyName : String
  count : String
  inputField : Int
  inputActive : Bool
  deriving DecidableEq, Repr

/-- The messages `Update` distinguishes: `tea.WindowSizeMsg`, `resultMsg`, `tea.KeyMsg`, and
any other message. -/
inductive Msg where
  | windowSize (width height : Int)
  | resultMsg (result : Option ResourceResult)
  | key (s : String)
  | other
  deriving DecidableEq, Repr

/-- The commands `Update` returns: `tea.Quit` and the closures built by `createS3Bucket` and
`createEC2Instances`. -/
inductive Cmd where
  | quit
  | createS3Bucket (m : Model)
  | createEC2Instances (m : Model)
  deriving DecidableEq, Repr

/-- Arithmetic on the Go type `int` wraps modulo `2^64`. -/
def wrapInt (n : Int) : Int :=
  (n + (2 : Int) ^ 63) % (2 : Int) ^ 64 - (2 : Int) ^ 63

/-- initialModel of `app.go`. -/
def initialModel : Model :=
  { screen := Screen.MainMenu
    cursor := 0
    choices := ["S3 - Manage Buckets", "EC2 - Manage Instances", "Exit"]
    selected := []
    width := 0
    height := 0
    result := none
    errorMsg := ""
    bucketName := ""
    region := "us-east-1"
    imageID := ""
    instanceType := ""
    keyName := ""
    count := "1"
    inputField := 0
    inputActive := false }

/-- Model.getChoices of `app.go`. -/
def Model.getChoices (m : Model) : List String :=
  match m.screen with
  | Screen.MainMenu => ["S3 - Manage Buckets", "EC2 - Manage Instances", "Exit"]
  | Screen.S3Menu => ["Create Bucket", "Back to Main Menu"]
  | Screen.EC2Menu => ["Create Instances", "Back to Main Menu"]
  | Screen.S3CreateBucket => ["Create Bucket", "Back to S3 Menu"]
  | Screen.EC2CreateInstances => ["Launch Instances", "Back to EC2 Menu"]
  | _ => []

/-- Model.handleEnter of `app.go`. -/
def Model.handleEnter (m : Model) : Model × Option Cmd :=
  if m.inputActive then
    ({ m with inputActive := false }, none)
  else
    match m.screen with
    | Screen.MainMenu =>
      if m.cursor = 0 then ({ m with screen := Screen.S3Menu, cursor := 0 }, none)
      else if m.cursor = 1 then ({ m with screen := Screen.EC2Menu, cursor := 0 }, none)
      else if m.cursor = 2 then (m, some Cmd.quit)
      else (m, none)
    | Screen.S3Menu =>
      if m.cursor = 0 then
        ({ m with screen := Screen.S3CreateBucket, cursor := 0, inputField := 0 }, none)
      else if m.cursor = 1 then ({ m with screen := Screen.MainMenu, cursor := 0 }, none)
      else (m, none)
    | Screen.EC2Menu =>
      if m.cursor = 0 then
        ({ m with screen := Screen.EC2CreateInstances, cursor := 0, inputField := 0 }, none)
      else if m.cursor = 1 then ({ m with screen := Screen.MainMenu, cursor := 0 }, none)
      else (m, none)
    | Screen.S3CreateBucket =>
      if m.cursor = 0 then (m, some (Cmd.createS3Bucket m))
      else if m.cursor = 1 then ({ m with screen := Screen.S3Menu, cursor := 0 }, none)
      else (m, none)
    | Screen.EC2CreateInstances =>
      if m.cursor = 0 then (m, some (Cmd.createEC2Instances m))
      else if m.cursor = 1 then ({ m with screen := Screen.EC2Menu, cursor := 0 }, none)
      else (m, none)
    | _ =>
      if m.screen = Screen.S3CreateBucket ∨ m.screen = Screen.EC2CreateInstances then
        ({ m with inputActive := true }, none)
      else (m, none)

/-- Model.addChar of `app.go`. -/
def Model.addChar (m : Model) (char : String) : Model :=
  match m.screen with
  | Screen.S3CreateBucket =>
    if m.inputField = 0 then { m with bucketName := m.bucketName ++ char }
    else if m.inputField = 1 then { m with region := m.region ++ char }
    else m
  | Screen.EC2CreateInstances =>
    if m.inputField = 0 then { m with imageID := m.imageID ++ char }
    else if m.inputField = 1 then { m with instanceType := m.instanceType ++ char }
    else if m.inputField = 2 then { m with keyName := m.keyName ++ char }
    else if m.inputField = 3 then { m with count := m.count ++ char }
    else if m.inputField = 4 then { m with region := m.region ++ char }
    else m
  | _ => m

/-- The slice `s[:len(s)-1]` guarded by `len(s) > 0`. It is exact on a buffer whose last
character is one byte long, which is every buffer built by `addChar` from the initial model;
on a buffer ending in a longer character Go keeps the leading bytes of that character, a text
that is no valid UTF-8 and that this model replaces by the buffer without the character. -/
def dropLastByte (s : String) : String :=
  if s.utf8ByteSize > 0 then s.dropRight 1 else s

/-- Model.removeChar of `app.go`. -/
def Model.removeChar (m : Model) : Model :=
  match m.screen with
  | Screen.S3CreateBucket =>
    if m.inputField = 0 then { m with bucketName := dropLastByte m.bucketName }
    else if m.inputField = 1 then { m with region := dropLastByte m.region }
    else m
  | Screen.EC2CreateInstances =>
    if m.inputField = 0 then { m with imageID := dropLastByte m.imageID }
    else if m.inputField = 1 then { m with instanceType := dropLastByte m.instanceType }
    else if m.inputField = 2 then { m with keyName := dropLastByte m.keyName }
    else if m.inputField = 3 then { m with count := dropLastByte m.count }
    else if m.inputField = 4 then { m with region := dropLastByte m.region }
    else m
  | _ => m

/-- Model.handleInput of `app.go`; `len(key)` counts bytes. -/
def Model.handleInput (m : Model) (key : String) : Model × Option Cmd :=
  if key = "backspace" then (m.removeChar, none)
  else if key = "enter" then ({ m with inputActive := false }, none)
  else if key.utf8ByteSize = 1 then (m.addChar key, none)
  else (m, none)

/-- Model.handleResult of `app.go`. -/
def Model.handleResult (m : Model) (result : Option ResourceResult) : Model × Option Cmd :=
  ({ m with result := result, screen := Screen.ResultScreen, cursor := 0 }, none)

/-- The `esc` case of `Update` once the edit sub-mode is known to be inactive (`app.go` lines
115-130). -/
def Model.navigateBack (m : Model) : Model :=
  match m.screen with
  | Screen.S3Menu => { m with screen := Screen.MainMenu, cursor := 0 }
  | Screen.EC2Menu => { m with screen := Screen.MainMenu, cursor := 0 }
  | Screen.S3CreateBucket => { m with screen := Screen.S3Menu, cursor := 0, inputField := 0 }
  | Screen.EC2CreateInstances =>
    { m with screen := Screen.EC2Menu, cursor := 0, inputField := 0 }
  | Screen.ResultScreen => { m with screen := Screen.MainMenu, cursor := 0 }
  | _ => m

/-- Model.Update of `app.go`. -/
def Model.Update (m : Model) (msg : Msg) : Model × Option Cmd :=
  match msg with
  | Msg.windowSize width height => ({ m with width := width, height := height }, none)
  | Msg.resultMsg result => m.handleResult result
  | Msg.key s =>
    if s = "ctrl+c" ∨ s = "q" then (m, some Cmd.quit)
    else if s = "esc" then
      if m.inputActive then ({ m with inputActive := false }, none)
      else (m.navigateBack, none)
    else if s = "enter" then m.handleEnter
    else if s = "up" ∨ s = "k" then
      if !m.inputActive then
        let m1 := { m with cursor := wrapInt (m.cursor - 1) }
        if m1.cursor < 0 then
          ({ m1 with cursor := (m1.getChoices.length : Int) - 1 }, none)
        else (m1, none)
      else (m, none)
    else if s = "down" ∨ s = "j" then
      if !m.inputActive then
        let m1 := { m with cursor := wrapInt (m.cursor + 1) }
        if m1.cursor ≥ (m1.getChoices.length : Int) then ({ m1 with cursor := 0 }, none)
        else (m1, none)
      else (m, none)
    else if s = "tab" then
      if m.screen = Screen.S3CreateBucket then
        ({ m with inputField := Int.tmod (wrapInt (m.inputField + 1)) 2 }, none)
      else if m.screen = Screen.EC2CreateInstances then
        ({ m with inputField := Int.tmod (wrapInt (m.inputField + 1)) 5 }, none)
      else (m, none)
    else if m.inputActive then m.handleInput s
    else (m, none)
  | Msg.other => (m, none)

/-- The event loop of the console: the model after `Update` has consumed the messages `msgs`
in order, starting from `m`. -/
def Model.feed (m : Model) (msgs : List Msg) : Model :=
  msgs.foldl (fun cur msg => (cur.Update msg).1) m

/-- What running a create command yields: the result carried by its `resultMsg`, the regions
for which a service was constructed, and the requests handed to the provider. When `panicked`
is set the command aborted with a runtime panic and delivered no message. -/
structure CommandRun where
  result : Option ResourceResult
  constructed : List String
  bucketCalls : List CreateBucketInput
  instanceCalls : List RunInstancesInput
  panicked : Bool := false
  deriving DecidableEq, Repr

/-- The closure returned by `Model.createS3Bucket` of `app.go`, run with the configuration
loader `load`. -/
def Model.createS3Bucket (load : String → Except String S3Client) (m : Model) : CommandRun :=
  if m.bucketName = "" then
    { result := some { Success := false, Error := "ValidationError",
                       Message := "Bucket name is required" },
      constructed := [], bucketCalls := [], instanceCalls := [] }
  else
    match NewS3Service load m.region with
    | .error err =>
      { result := some { Success := false, Error := "ServiceError",
                         Message := "Failed to create S3 service: " ++ err },
        constructed := [m.region], bucketCalls := [], instanceCalls := [] }
    | .ok s3Service =>
      let params : Params :=
        [("bucket_name", Value.str m.bucketName), ("region", Value.str m.region)]
      let out := s3Service.CreateResource params
      match out.err with
      | some err =>
        { result := some { Success := false, Error := "CreationError",
                           Message := "Failed to create bucket: " ++ err },
          constructed := [m.region], bucketCalls := out.calls, instanceCalls := [] }
      | none =>
        { result := out.result,
          constructed := [m.region], bucketCalls := out.calls, instanceCalls := [] }

/-- The closure returned by `Model.createEC2Instances` of `app.go`, run with the
configuration loader `load`. -/
def Model.createEC2Instances (load : String → Except String EC2Client) (m : Model) :
    CommandRun :=
  if m.imageID = "" ∨ m.instanceType = "" ∨ m.keyName = "" then
    { result := some { Success := false, Error := "ValidationError",
                       Message := "Image ID, instance type, and key name are required" },
      constructed := [], bucketCalls := [], instanceCalls := [] }
  else
    match NewEC2Service load m.region with
    | .error err =>
      { result := some { Success := false, Error := "ServiceError",
                         Message := "Failed to create EC2 service: " ++ err },
        constructed := [m.region], bucketCalls := [], instanceCalls := [] }
    | .ok ec2Service =>
      let params : Params :=
        [("image_id", Value.str m.imageID), ("instance_type", Value.str m.instanceType),
         ("key_name", Value.str m.keyName), ("count", Value.str m.count),
         ("region", Value.str m.region)]
      let out := EC2Service.CreateResource load ec2Service params
      if out.panicked then
        { result := none, constructed := [m.region], bucketCalls := [],
          instanceCalls := out.calls, panicked := true }
      else
        match out.err with
        | some err =>
          { result := some { Success := false, Error := "CreationError",
                             Message := "Failed to create instances: " ++ err },
            constructed := [m.region], bucketCalls := [], instanceCalls := out.calls }
        | none =>
          { result := out.result,
            constructed := [m.region], bucketCalls := [], instanceCalls := out.calls }

/-- Running a command of the console with the two configuration loaders; `tea.Quit` yields
no result message. -/
def Cmd.run (loadS3 : String → Except String S3Client)
    (loadEC2 : String → Except String EC2Client) : Cmd → Option CommandRun
  | Cmd.quit => none
  | Cmd.createS3Bucket m => some (m.createS3Bucket loadS3)
  | Cmd.createEC2Instances m => some (m.createEC2Instances loadEC2)

/-! ## Command surface (`pkg/cli/s3.go`, `pkg/cli/ec2.go`) -/

/-- What a run of a command handler yields: the exit status of the process, the lines written
to standard error, the regions for which a service was constructed, the parameter map handed
to `CreateResource`, the result handed to `printResult`, and the requests handed to the
provider. -/
structure CliRun where
  exitCode : Int
  stderr : List String
  constructed : List String
  params : Option Params
  printed : Option ResourceResult
  bucketCalls : List CreateBucketInput
  instanceCalls : List RunInstancesInput
  deriving DecidableEq, Repr

/-- A handler that stops with `os.Exit(1)` after writing `line`, before any service exists. -/
def exitEarly (line : String) : CliRun :=
  { exitCode := 1, stderr := [line], constructed := [], params := none, printed := none,
    bucketCalls := [], instanceCalls := [] }

/-- The `Run` function of `s3CreateBucketCmd` (`pkg/cli/s3.go` lines 32-75); `region` is the
global flag, `s3Region` and `s3BucketName` the flags of the action. A nil result would abort
`printResult` with a runtime panic, exit status 2. -/
def s3CreateBucketRun (load : String → Except String S3Client)
    (region s3Region s3BucketName : String) : CliRun :=
  let targetRegion := if s3Region = "" then region else s3Region
  if targetRegion = "" then exitEarly "Error: region is required\n"
  else if s3BucketName = "" then exitEarly "Error: bucket-name is required\n"
  else
    match NewS3Service load targetRegion with
    | .error err =>
      { exitCode := 1, stderr := ["Error creating S3 service: " ++ err ++ "\n"],
        constructed := [targetRegion], params := none, printed := none,
        bucketCalls := [], instanceCalls := [] }
    | .ok s3Service =>
      let params : Params :=
        [("bucket_name", Value.str s3BucketName), ("region", Value.str targetRegion)]
      let out := s3Service.CreateResource params
      match out.err with
      | some err =>
        { exitCode := 1, stderr := ["Error creating bucket: " ++ err ++ "\n"],
          constructed := [targetRegion], params := some params, printed := none,
          bucketCalls := out.calls, instanceCalls := [] }
      | none =>
        match out.result with
        | none =>
          { exitCode := 2, stderr := [], constructed := [targetRegion],
            params := some params, printed := none,
            bucketCalls := out.calls, instanceCalls := [] }
        | some result =>
          { exitCode := if !result.Success then 1 else 0, stderr := [],
            constructed := [targetRegion], params := some params, printed := some result,
            bucketCalls := out.calls, instanceCalls := [] }

/-- The `Run` function of `ec2CreateInstancesCmd` (`pkg/cli/ec2.go` lines 46-101); `region`
is the global flag, the others the flags of the action. A panic inside `CreateResource` ends
the process with exit status 2 before anything is printed. -/
def ec2CreateInstancesRun (load : String → Except String EC2Client)
    (region ec2Region ec2ImageID ec2InstanceType ec2KeyName : String) (ec2Count : Int) :
    CliRun :=
  let targetRegion := if ec2Region = "" then region else ec2Region
  if targetRegion = "" then exitEarly "Error: region is required\n"
  else if ec2ImageID = "" then exitEarly "Error: image-id is required\n"
  else if ec2InstanceType = "" then exitEarly "Error: instance-type is required\n"
  else if ec2KeyName = "" then exitEarly "Error: key-name is required\n"
  else
    match NewEC2Service load targetRegion with
    | .error err =>
      { exitCode := 1, stderr := ["Error creating EC2 service: " ++ err ++ "\n"],
        constructed := [targetRegion], params := none, printed := none,
        bucketCalls := [], instanceCalls := [] }
    | .ok ec2Service =>
      let params : Params :=
        [("image_id", Value.str ec2ImageID), ("instance_type", Value.str ec2InstanceType),
         ("key_name", Value.str ec2KeyName), ("count", Value.int ec2Count),
         ("region", Value.str targetRegion)]
      let out := EC2Service.CreateResource load ec2Service params
      if out.panicked then
        { exitCode := 2, stderr := [], constructed := [targetRegion],
          params := some params, printed := none,
          bucketCalls := [], instanceCalls := out.calls }
      else
        match out.err with
        | some err =>
          { exitCode := 1, stderr := ["Error creating instances: " ++ err ++ "\n"],
            constructed := [targetRegion], params := some params, printed := none,
            bucketCalls := [], instanceCalls := out.calls }
        | none =>
          match out.result with
          | none =>
            { exitCode := 2, stderr := [], constructed := [targetRegion],
              params := some params, printed := none,
              bucketCalls := [], instanceCalls := out.calls }
          | some result =>
            { exitCode := if !result.Success then 1 else 0, stderr := [],
              constructed := [targetRegion], params := some params, printed := some result,
              bucketCalls := [], instanceCalls := out.calls }

/-- The six text buffers of the two forms, in the order bucket name, region, image id,
instance type, key name, count. -/
def Model.formText (m : Model) : List String :=
  [m.bucketName, m.region, m.imageID, m.instanceType, m.keyName, m.count]

/-- The cursor and focus bounds that hold in every state the console reaches: outside the
result screen the cursor indexes the choice list, and on a form screen the focus index
selects one of the form fields. -/
def Model.WellPlaced (m : Model) : Prop :=
  (m.screen ≠ Screen.ResultScreen → 0 ≤ m.cursor ∧ m.cursor < (m.getChoices.length : Int)) ∧
  (m.screen = Screen.S3CreateBucket → 0 ≤ m.inputField ∧ m.inputField < 2) ∧
  (m.screen = Screen.EC2CreateInstances → 0 ≤ m.inputField ∧ m.inputField < 5)

/-! ## Required-field check -/

theorem foldl_collect_eq (p : String → Bool) (required acc : List String) :
    required.foldl (fun missing param => if p param then missing ++ [param] else missing) acc
      = acc ++ required.filter p := by
  induction required generalizing acc with
  | nil => simp
  | cons k ks ih =>
    by_cases hk : p k = true
    · simp [List.foldl_cons, List.filter_cons, hk, ih]
    · simp [List.foldl_cons, List.filter_cons, hk, ih]

theorem collectMissing_eq_filter (params : Params) (required : List String) :
    collectMissing params required = required.filter (paramMissing params) := by
  unfold collectMissing
  rw [foldl_collect_eq]
  simp

theorem paramMissing_eq_decide (params : Params) (k : String) :
    paramMissing params k
      = decide (params.lookup k = none ∨ params.lookup k = some Value.nil ∨
          params.lookup k = some (Value.str "")) := by
  unfold paramMissing
  cases h : params.lookup k with
  | none => simp
  | some v =>
    simp [Bool.decide_or]
    rfl

theorem paramMissing_false_iff (params : Params) (k : String) :
    paramMissing params k = false ↔
      ∃ v, params.lookup k = some v ∧ v ≠ Value.nil ∧ v ≠ Value.str "" := by
  unfold paramMissing
  cases h : params.lookup k with
  | none => simp
  | some v => simp

theorem validate_eq (b : BaseService) (params : Params) (required : List String) :
    b.ValidateRequiredParams params required =
      if required.filter (paramMissing params) = [] then none
      else some ("missing required parameters: " ++
        fmtStrings (required.filter (paramMissing params))) := by
  unfold BaseService.ValidateRequiredParams
  rw [collectMissing_eq_filter]
  cases h : required.filter (paramMissing params) with
  | nil => simp
  | cons a as => simp

theorem validate_none_iff (b : BaseService) (params : Params) (required : List String) :
    b.ValidateRequiredParams params required = none ↔
      ∀ k ∈ required, ∃ v, params.lookup k = some v ∧ v ≠ Value.nil ∧ v ≠ Value.str "" := by
  rw [validate_eq]
  constructor
  · intro h k hk
    by_cases hnil : required.filter (paramMissing params) = []
    · rw [List.filter_eq_nil_iff] at hnil
      have := hnil k hk
      exact (paramMissing_false_iff params k).1 (by simpa using this)
    · simp [hnil] at h
  · intro h
    have hnil : required.filter (paramMissing params) = [] := by
      rw [List.filter_eq_nil_iff]
      intro k hk
      have := (paramMissing_false_iff params k).2 (h k hk)
      simp [this]
    simp [hnil]

/-- C9. `ValidateRequiredParams` returns no error exactly when every required key is present
with a value that is neither null nor the empty string; otherwise its single error reads
`missing required parameters: ` followed by the `%v` rendering of the required keys that are
absent, null or empty, in the order of the required list. -/
theorem validateRequiredParams_spec (b : BaseService) (params : Params)
    (required : List String) :
    (b.ValidateRequiredParams params required = none ↔
      ∀ k ∈ required, ∃ v, params.lookup k = some v ∧ v ≠ Value.nil ∧ v ≠ Value.str "") ∧
    (b.ValidateRequiredParams params required = none ∨
      b.ValidateRequiredParams params required =
        some ("missing required parameters: " ++
          fmtStrings (required.filter fun k =>
            decide (params.lookup k = none ∨ params.lookup k = some Value.nil ∨
              params.lookup k = some (Value.str ""))))) := by
  refine ⟨validate_none_iff b params required, ?_⟩
  have hfun : (fun k => decide (params.lookup k = none ∨ params.lookup k = some Value.nil ∨
      params.lookup k = some (Value.str ""))) = paramMissing params := by
    funext k
    exact (paramMissing_eq_decide params k).symm
  rw [hfun, validate_eq]
  by_cases hnil : required.filter (paramMissing params) = []
  · left; simp [hnil]
  · right; simp [hnil]

theorem validateRequiredParams_spec_witness :
    (NewBaseService "us-east-1").ValidateRequiredParams
        [("image_id", Value.str ""), ("key_name", Value.nil),
         ("instance_type", Value.str "t2.micro")]
        ["image_id", "instance_type", "key_name", "count"]
      = some "missing required parameters: [image_id key_name count]" ∧
    (NewBaseService "us-east-1").ValidateRequiredParams
        [("bucket_name", Value.str "test-bucket"), ("region", Value.str "us-east-1")]
        ["bucket_name"] = none := by
  constructor
  · rcases (validateRequiredParams_spec (NewBaseService "us-east-1")
        [("image_id", Value.str ""), ("key_name", Value.nil),
         ("instance_type", Value.str "t2.micro")]
        ["image_id", "instance_type", "key_name", "count"]).2 with h | h
    · exact absurd h (by decide)
    · rw [h]
      decide
  · apply (validateRequiredParams_spec (NewBaseService "us-east-1")
        [("bucket_name", Value.str "test-bucket"), ("region", Value.str "us-east-1")]
        ["bucket_name"]).1.2
    intro k hk
    rw [List.mem_singleton] at hk
    subst hk
    exact ⟨Value.str "test-bucket", rfl, by decide, by decide⟩

/-! ## Messages that name a field -/

theorem intercalate_go_contains (sep k : String) (rest : List String) (acc : String)
    (h : (∃ pre post : String, acc = pre ++ k ++ post) ∨ k ∈ rest) :
    ∃ pre post : String, String.intercalate.go acc sep rest = pre ++ k ++ post := by
  induction rest generalizing acc with
  | nil =>
    rcases h with h | h
    · simpa [String.intercalate.go] using h
    · simp at h
  | cons a more ih =>
    simp only [String.intercalate.go]
    apply ih
    rcases h with ⟨pre, post, hacc⟩ | h
    · left
      exact ⟨pre, post ++ sep ++ a, by simp [hacc, String.append_assoc]⟩
    · rcases List.mem_cons.1 h with h | h
      · left
        exact ⟨acc ++ sep, "", by simp [h]⟩
      · right
        exact h

theorem intercalate_contains (sep k : String) (xs : List String) (h : k ∈ xs) :
    ∃ pre post : String, sep.intercalate xs = pre ++ k ++ post := by
  cases xs with
  | nil => simp at h
  | cons a rest =>
    simp only [String.intercalate]
    apply intercalate_go_contains
    rcases List.mem_cons.1 h with h | h
    · left
      exact ⟨"", "", by simp [h]⟩
    · right
      exact h

theorem validate_names_missing (b : BaseService) (params : Params) (required : List String)
    (k : String) (hk : k ∈ required) (hm : paramMissing params k = true) :
    ∃ msg, b.ValidateRequiredParams params required = some msg ∧
      ∀ j ∈ required, paramMissing params j = true →
        ∃ pre post : String, msg = pre ++ j ++ post := by
  have hne : required.filter (paramMissing params) ≠ [] := by
    intro hnil
    rw [List.filter_eq_nil_iff] at hnil
    exact hnil k hk hm
  refine ⟨_, by rw [validate_eq, if_neg hne], ?_⟩
  intro j hj hjm
  have hmem : j ∈ required.filter (paramMissing params) := List.mem_filter.2 ⟨hj, hjm⟩
  obtain ⟨pre, post, h⟩ := intercalate_contains " " j _ hmem
  refine ⟨"missing required parameters: " ++ "[" ++ pre, post ++ "]", ?_⟩
  simp only [fmtStrings, h, String.append_assoc]

/-! ## Unfolding the services -/

theorem assertString_some_iff (o : Option Value) (s : String) :
    assertString o = some s ↔ o = some (Value.str s) := by
  unfold assertString
  split <;> simp_all

theorem assertString_absent_or_null (o : Option Value)
    (h : o = none ∨ o = some Value.nil) : assertString o = none := by
  rcases h with h | h <;> simp [h, assertString]

theorem paramMissing_of_empty (params : Params) (k : String)
    (h : params.lookup k = some (Value.str "")) : paramMissing params k = true := by
  rw [paramMissing_eq_decide]
  simp [h]

theorem paramMissing_str_iff (params : Params) (k s : String)
    (h : params.lookup k = some (Value.str s)) : paramMissing params k = true ↔ s = "" := by
  rw [paramMissing_eq_decide]
  simp [h]

theorem ec2Launch_invalid (b : BaseService) (client : EC2Client) (params : Params)
    (i t k : String) (count : Int) (region msg : String)
    (hv : b.ValidateRequiredParams params ["image_id", "instance_type", "key_name"] = some msg) :
    ec2Launch b client params i t k count region =
      { result := some { Success := false, Error := "ValidationError", Message := msg },
        err := none, calls := [], client := client } := by
  unfold ec2Launch
  rw [hv]

theorem ec2_create_eq_launch (load : String → Except String EC2Client) (e : EC2Service)
    (params : Params) (i t k : String)
    (hi : params.lookup "image_id" = some (Value.str i))
    (ht : params.lookup "instance_type" = some (Value.str t))
    (hk : params.lookup "key_name" = some (Value.str k))
    (hc : 1 ≤ resolveCount params)
    (hcfg : ∀ region, assertString (params.lookup "region") = some region → region ≠ "" →
      ∃ c, load region = .ok c) :
    ∃ client, EC2Service.CreateResource load e params =
      ec2Launch e.toBaseService client params i t k (resolveCount params)
        (targetRegionOf e.Region params) := by
  have hi2 := (assertString_some_iff _ _).2 hi
  have ht2 := (assertString_some_iff _ _).2 ht
  have hk2 := (assertString_some_iff _ _).2 hk
  unfold EC2Service.CreateResource targetRegionOf
  simp only [hi2, ht2, hk2, not_lt.2 hc, if_false]
  cases hr : assertString (params.lookup "region") with
  | none => exact ⟨e.client, rfl⟩
  | some region =>
    by_cases hne : region = ""
    · simp only [hne, ne_eq, not_true_eq_false, if_false]
      exact ⟨e.client, rfl⟩
    · obtain ⟨c, hcl⟩ := hcfg region hr hne
      simp only [ne_eq, hne, not_false_eq_true, if_true, hcl]
      exact ⟨c, rfl⟩

/-- The paths of `EC2Service.CreateResource` up to the required-field check: one of the three
type assertions fails, the count is below 1, the client rebuild fails, or the call continues
with `ec2Launch`. -/
theorem ec2_create_cases (load : String → Except String EC2Client) (e : EC2Service)
    (params : Params) :
    (assertString (params.lookup "image_id") = none ∧
      EC2Service.CreateResource load e params =
        { result := some { Success := false, Error := "invalid image_id parameter",
                           Message := "image_id must be a string" },
          err := none, calls := [], client := e.client }) ∨
    (∃ i, assertString (params.lookup "image_id") = some i ∧
      assertString (params.lookup "instance_type") = none ∧
      EC2Service.CreateResource load e params =
        { result := some { Success := false, Error := "invalid instance_type parameter",
                           Message := "instance_type must be a string" },
          err := none, calls := [], client := e.client }) ∨
    (∃ i t, assertString (params.lookup "image_id") = some i ∧
      assertString (params.lookup "instance_type") = some t ∧
      assertString (params.lookup "key_name") = none ∧
      EC2Service.CreateResource load e params =
        { result := some { Success := false, Error := "invalid key_name parameter",
                           Message := "key_name must be a string" },
          err := none, calls := [], client := e.client }) ∨
    (∃ i t k, assertString (params.lookup "image_id") = some i ∧
      assertString (params.lookup "instance_type") = some t ∧
      assertString (params.lookup "key_name") = some k ∧
      ((resolveCount params < 1 ∧
        EC2Service.CreateResource load e params =
          { result := some { Success := false, Error := "ValidationError",
                             Message := "Count must be at least 1" },
            err := none, calls := [], client := e.client }) ∨
       (1 ≤ resolveCount params ∧ ∃ region m,
        assertString (params.lookup "region") = some region ∧ region ≠ "" ∧
        load region = .error m ∧
        EC2Service.CreateResource load e params =
          { result := some { Success := false, Error := "ConfigurationError",
                             Message := "Failed to configure AWS client for region " ++
                               region ++ ": " ++ m },
            err := none, calls := [], client := e.client }) ∨
       (1 ≤ resolveCount params ∧
        (∀ region, assertString (params.lookup "region") = some region → region ≠ "" →
          ∃ c, load region = .ok c) ∧
        ∃ client, EC2Service.CreateResource load e params =
          ec2Launch e.toBaseService client params i t k (resolveCount params)
            (targetRegionOf e.Region params)))) := by
  cases hi : assertString (params.lookup "image_id") with
  | none =>
    left
    refine ⟨rfl, ?_⟩
    unfold EC2Service.CreateResource
    simp only [hi]
  | some i =>
    right
    cases ht : assertString (params.lookup "instance_type") with
    | none =>
      left
      refine ⟨i, rfl, rfl, ?_⟩
      unfold EC2Service.CreateResource
      simp only [hi, ht]
    | some t =>
      right
      cases hk : assertString (params.lookup "key_name") with
      | none =>
        left
        refine ⟨i, t, rfl, rfl, rfl, ?_⟩
        unfold EC2Service.CreateResource
        simp only [hi, ht, hk]
      | some k =>
        right
        refine ⟨i, t, k, rfl, rfl, rfl, ?_⟩
        by_cases hc : resolveCount params < 1
        · left
          refine ⟨hc, ?_⟩
          unfold EC2Service.CreateResource
          simp only [hi, ht, hk, hc, if_true]
        · right
          have hc1 : 1 ≤ resolveCount params := not_lt.1 hc
          by_cases hcfg : ∀ region, assertString (params.lookup "region") = some region →
              region ≠ "" → ∃ c, load region = .ok c
          · right
            exact ⟨hc1, hcfg, ec2_create_eq_launch load e params i t k
              ((assertString_some_iff _ _).1 hi) ((assertString_some_iff _ _).1 ht)
              ((assertString_some_iff _ _).1 hk) hc1 hcfg⟩
          · left
            push_neg at hcfg
            obtain ⟨region, hr, hne, hload⟩ := hcfg
            cases hl : load region with
            | ok c => exact absurd hl (hload c)
            | error m =>
              refine ⟨hc1, region, m, hr, hne, hl, ?_⟩
              unfold EC2Service.CreateResource
              simp only [hi, ht, hk, hc, if_false, hr, ne_eq, hne, not_false_eq_true,
                if_true, hl]

/-- The paths of `ec2Launch`: the required-field check fails, the provider fails, the
provider succeeds and every reported instance has a state, or the provider succeeds and the
loop over the instances panics. -/
theorem ec2Launch_cases (b : BaseService) (client : EC2Client) (params : Params)
    (i t k : String) (count : Int) (region : String) :
    (∃ msg, b.ValidateRequiredParams params ["image_id", "instance_type", "key_name"]
        = some msg ∧
      ec2Launch b client params i t k count region =
        { result := some { Success := false, Error := "ValidationError", Message := msg },
          err := none, calls := [], client := client }) ∨
    (b.ValidateRequiredParams params ["image_id", "instance_type", "key_name"] = none ∧
      ((∃ m, client (runInput i t k count) = .error m ∧
        ec2Launch b client params i t k count region =
          { result := some
              (if containsError m "InvalidAMIID" then
                { Success := false, Error := "InvalidAMIID",
                  Message := "Invalid AMI ID: " ++ i }
              else if containsError m "InvalidKeyPair" then
                { Success := false, Error := "InvalidKeyPair",
                  Message := "Invalid key pair: " ++ k }
              else
                { Success := false, Error := "UnknownError",
                  Message := "Failed to launch instances: " ++ m }),
            err := none, calls := [runInput i t k count], client := client }) ∨
       (∃ out, client (runInput i t k count) = .ok out ∧
        ∃ maps, instanceMaps out.Instances = some maps ∧
        ec2Launch b client params i t k count region =
          { result := some
              { Success := true,
                Message := "Successfully launched " ++ toString count ++
                  " EC2 instance(s) in region '" ++ region ++ "'",
                Data := some [("instances", Value.mapSlice maps),
                              ("region", Value.str region),
                              ("image_id", Value.str i),
                              ("instance_type", Value.str t),
                              ("key_name", Value.str k),
                              ("count", Value.int count)] },
            err := none, calls := [runInput i t k count], client := client }) ∨
       (∃ out, client (runInput i t k count) = .ok out ∧
        instanceMaps out.Instances = none ∧
        ec2Launch b client params i t k count region =
          { result := none, err := none, calls := [runInput i t k count], client := client,
            panicked := true }))) := by
  cases hv : b.ValidateRequiredParams params ["image_id", "instance_type", "key_name"] with
  | some msg =>
    left
    exact ⟨msg, rfl, ec2Launch_invalid b client params i t k count region msg hv⟩
  | none =>
    right
    refine ⟨rfl, ?_⟩
    cases hcall : client (runInput i t k count) with
    | error m =>
      left
      refine ⟨m, rfl, ?_⟩
      unfold ec2Launch
      simp only [hv, hcall]
      split_ifs <;> rfl
    | ok out =>
      right
      cases hmaps : instanceMaps out.Instances with
      | some maps =>
        left
        refine ⟨out, rfl, maps, hmaps, ?_⟩
        unfold ec2Launch
        simp only [hv, hcall, hmaps]
      | none =>
        right
        refine ⟨out, rfl, hmaps, ?_⟩
        unfold ec2Launch
        simp only [hv, hcall, hmaps]

theorem validate_bucket_name (b : BaseService) (params : Params) (name : String)
    (h : params.lookup "bucket_name" = some (Value.str name)) :
    b.ValidateRequiredParams params ["bucket_name"] =
      if name = "" then some "missing required parameters: [bucket_name]" else none := by
  rw [validate_eq]
  by_cases hn : name = ""
  · have hm : paramMissing params "bucket_name" = true := (paramMissing_str_iff _ _ _ h).2 hn
    simp only [List.filter_cons, hm, if_true, List.filter_nil, hn]
    decide
  · have hm : paramMissing params "bucket_name" = false := by
      cases hp : paramMissing params "bucket_name" with
      | false => rfl
      | true => exact absurd ((paramMissing_str_iff _ _ _ h).1 hp) hn
    simp [List.filter_cons, hm, hn]

/-- The paths of `S3Service.CreateResource`: the type assertion fails, the required-field check
fails, the provider fails, or the provider succeeds. -/
theorem s3_create_cases (s : S3Service) (params : Params) :
    (assertString (params.lookup "bucket_name") = none ∧
      s.CreateResource params =
        { result := some { Success := false, Error := "invalid bucket_name parameter",
                           Message := "bucket_name must be a string" },
          err := none, calls := [] }) ∨
    (params.lookup "bucket_name" = some (Value.str "") ∧
      s.CreateResource params =
        { result := some { Success := false, Error := "ValidationError",
                           Message := "missing required parameters: [bucket_name]" },
          err := none, calls := [] }) ∨
    (∃ name, params.lookup "bucket_name" = some (Value.str name) ∧ name ≠ "" ∧
      ((∃ m, s.client (bucketInput name (targetRegionOf s.Region params)) = .error m ∧
        s.CreateResource params =
          { result := some
              (if containsError m "BucketAlreadyExists" then
                { Success := false, Error := "BucketAlreadyExists",
                  Message := "Bucket '" ++ name ++
                    "' already exists and is owned by another account" }
              else if containsError m "BucketAlreadyOwnedByYou" then
                { Success := false, Error := "BucketAlreadyOwnedByYou",
                  Message := "Bucket '" ++ name ++ "' already exists and is owned by you" }
              else
                { Success := false, Error := "UnknownError",
                  Message := "Failed to create bucket: " ++ m }),
            err := none, calls := [bucketInput name (targetRegionOf s.Region params)] }) ∨
       (∃ out, s.client (bucketInput name (targetRegionOf s.Region params)) = .ok out ∧
        s.CreateResource params =
          { result := some
              { Success := true,
                Message := "Successfully created S3 bucket '" ++ name ++ "' in region '" ++
                  targetRegionOf s.Region params ++ "'",
                Data := some [("bucket_name", Value.str name),
                              ("region", Value.str (targetRegionOf s.Region params)),
                              ("location", Value.str (awsToString out.Location))] },
            err := none, calls := [bucketInput name (targetRegionOf s.Region params)] }))) := by
  cases hb : assertString (params.lookup "bucket_name") with
  | none =>
    left
    refine ⟨rfl, ?_⟩
    unfold S3Service.CreateResource
    simp only [hb]
  | some name =>
    right
    have hl := (assertString_some_iff _ _).1 hb
    have hv := validate_bucket_name s.toBaseService params name hl
    by_cases hn : name = ""
    · left
      subst hn
      refine ⟨hl, ?_⟩
      unfold S3Service.CreateResource
      simp only [hb, hv, if_true]
    · right
      refine ⟨name, hl, hn, ?_⟩
      rw [if_neg hn] at hv
      cases hcall : s.client (bucketInput name (targetRegionOf s.Region params)) with
      | error m =>
        left
        refine ⟨m, rfl, ?_⟩
        unfold S3Service.CreateResource
        simp only [hb, hv, hcall]
        split_ifs <;> rfl
      | ok out =>
        right
        refine ⟨out, rfl, ?_⟩
        unfold S3Service.CreateResource
        simp only [hb, hv, hcall]

/-! ## C1: a missing required field -/

/-- C1 (as stated, refuted). With `bucket_name` absent from the parameter map the bucket service
does not report `ValidationError`: the type assertion fails first and the error kind is
`invalid bucket_name parameter`. -/
theorem createResource_absent_key_not_validationError :
    List.lookup "bucket_name" ([] : Params) = none ∧
    (S3Service.CreateResource { Region := "us-east-1", client := s3Accepting none } []).result
      = some { Success := false, Error := "invalid bucket_name parameter",
               Message := "bucket_name must be a string" } ∧
    ¬ ∃ r, (S3Service.CreateResource
        { Region := "us-east-1", client := s3Accepting none } []).result = some r ∧
      r.Success = false ∧ r.Error = "ValidationError" := by
  refine ⟨rfl, rfl, ?_⟩
  rintro ⟨r, hr, -, he⟩
  have h : (S3Service.CreateResource
      { Region := "us-east-1", client := s3Accepting none } []).result
      = some { Success := false, Error := "invalid bucket_name parameter",
               Message := "bucket_name must be a string" } := rfl
  rw [h] at hr
  cases hr
  revert he
  decide

/-- C1 (amended). When a required key is absent, null or the empty string, `CreateResource`
of either service returns a result with `success=false` and makes no provider call. If the
key holds the empty string (for the instance service: every required key holds a string, the
count resolves to at least 1 and a region override finds its configuration), the error kind is
`ValidationError` and the message contains the name of every empty required field. If the
first required key that is not a string is absent or null, the error kind is
`invalid <key> parameter` and the message is `<key> must be a string`. -/
theorem createResource_missing_required :
    (∀ (s : S3Service) (params : Params),
      (params.lookup "bucket_name" = none ∨ params.lookup "bucket_name" = some Value.nil ∨
        params.lookup "bucket_name" = some (Value.str "")) →
      ∃ r, (s.CreateResource params).result = some r ∧ r.Success = false ∧
        (s.CreateResource params).calls = [] ∧
        (params.lookup "bucket_name" = some (Value.str "") →
          r.Error = "ValidationError" ∧
          ∃ pre post : String, r.Message = pre ++ "bucket_name" ++ post) ∧
        (params.lookup "bucket_name" = none ∨ params.lookup "bucket_name" = some Value.nil →
          r.Error = "invalid bucket_name parameter" ∧
          r.Message = "bucket_name must be a string")) ∧
    (∀ (load : String → Except String EC2Client) (e : EC2Service) (params : Params),
      (∃ k ∈ ["image_id", "instance_type", "key_name"],
        params.lookup k = none ∨ params.lookup k = some Value.nil ∨
          params.lookup k = some (Value.str "")) →
      ∃ r, (EC2Service.CreateResource load e params).result = some r ∧ r.Success = false ∧
        (EC2Service.CreateResource load e params).calls = [] ∧
        ((∀ k ∈ ["image_id", "instance_type", "key_name"],
            ∃ v, params.lookup k = some (Value.str v)) →
          1 ≤ resolveCount params →
          (∀ region, assertString (params.lookup "region") = some region → region ≠ "" →
            ∃ c, load region = .ok c) →
          r.Error = "ValidationError" ∧
          ∀ k ∈ ["image_id", "instance_type", "key_name"],
            params.lookup k = some (Value.str "") →
            ∃ pre post : String, r.Message = pre ++ k ++ post) ∧
        (params.lookup "image_id" = none ∨ params.lookup "image_id" = some Value.nil →
          r.Error = "invalid image_id parameter" ∧ r.Message = "image_id must be a string") ∧
        ((∃ v, params.lookup "image_id" = some (Value.str v)) →
          params.lookup "instance_type" = none ∨
            params.lookup "instance_type" = some Value.nil →
          r.Error = "invalid instance_type parameter" ∧
          r.Message = "instance_type must be a string") ∧
        ((∃ v, params.lookup "image_id" = some (Value.str v)) →
          (∃ v, params.lookup "instance_type" = some (Value.str v)) →
          params.lookup "key_name" = none ∨ params.lookup "key_name" = some Value.nil →
          r.Error = "invalid key_name parameter" ∧
          r.Message = "key_name must be a string")) := by
  constructor
  · intro s params h
    rcases s3_create_cases s params with ⟨hb, hout⟩ | ⟨hb, hout⟩ | ⟨name, hb, hn, -⟩
    · refine ⟨_, by rw [hout], rfl, by rw [hout], ?_, ?_⟩
      · intro he
        rw [he] at hb
        simp [assertString] at hb
      · intro _
        exact ⟨rfl, rfl⟩
    · refine ⟨_, by rw [hout], rfl, by rw [hout], ?_, ?_⟩
      · intro _
        exact ⟨rfl, "missing required parameters: [", "]", by decide⟩
      · intro he
        rw [hb] at he
        simp at he
    · rw [hb] at h
      simp [hn] at h
  · intro load e params h
    have hstr : ∀ k v, assertString (params.lookup k) = some v →
        ¬ (params.lookup k = none ∨ params.lookup k = some Value.nil) := by
      intro k v hk hno
      rw [assertString_absent_or_null _ hno] at hk
      cases hk
    have hnone : ∀ k, assertString (params.lookup k) = none →
        ¬ ∃ v, params.lookup k = some (Value.str v) := by
      rintro k hk ⟨v, hv⟩
      rw [(assertString_some_iff _ _).2 hv] at hk
      cases hk
    rcases ec2_create_cases load e params with
      ⟨hi, hout⟩ | ⟨i, hi, ht, hout⟩ | ⟨i, t, hi, ht, hk, hout⟩ |
      ⟨i, t, k, hi, ht, hk, ⟨hc, hout⟩ | ⟨hc, region, m, hr, hne, hl, hout⟩ |
        ⟨hc, hcfg, client, hout⟩⟩
    · refine ⟨_, by rw [hout], rfl, by rw [hout], ?_, ?_, ?_, ?_⟩
      · intro hall _ _
        exact absurd (hall "image_id" (by simp)) (hnone _ hi)
      · intro _
        exact ⟨rfl, rfl⟩
      · intro hs _
        exact absurd hs (hnone _ hi)
      · intro hs _ _
        exact absurd hs (hnone _ hi)
    · refine ⟨_, by rw [hout], rfl, by rw [hout], ?_, ?_, ?_, ?_⟩
      · intro hall _ _
        exact absurd (hall "instance_type" (by simp)) (hnone _ ht)
      · intro hno
        exact absurd hno (hstr _ _ hi)
      · intro _ _
        exact ⟨rfl, rfl⟩
      · intro _ hs _
        exact absurd hs (hnone _ ht)
    · refine ⟨_, by rw [hout], rfl, by rw [hout], ?_, ?_, ?_, ?_⟩
      · intro hall _ _
        exact absurd (hall "key_name" (by simp)) (hnone _ hk)
      · intro hno
        exact absurd hno (hstr _ _ hi)
      · intro _ hno
        exact absurd hno (hstr _ _ ht)
      · intro _ _ _
        exact ⟨rfl, rfl⟩
    · refine ⟨_, by rw [hout], rfl, by rw [hout], ?_, ?_, ?_, ?_⟩
      · intro _ hc1 _
        exact absurd hc (not_lt.2 hc1)
      · intro hno
        exact absurd hno (hstr _ _ hi)
      · intro _ hno
        exact absurd hno (hstr _ _ ht)
      · intro _ _ hno
        exact absurd hno (hstr _ _ hk)
    · refine ⟨_, by rw [hout], rfl, by rw [hout], ?_, ?_, ?_, ?_⟩
      · intro _ _ hcfg
        obtain ⟨c, hc2⟩ := hcfg region hr hne
        rw [hl] at hc2
        cases hc2
      · intro hno
        exact absurd hno (hstr _ _ hi)
      · intro _ hno
        exact absurd hno (hstr _ _ ht)
      · intro _ _ hno
        exact absurd hno (hstr _ _ hk)
    · obtain ⟨k0, hk0, hmiss⟩ := h
      have hk0m : paramMissing params k0 = true := by
        rw [paramMissing_eq_decide]
        simpa using hmiss
      obtain ⟨msg, hv, hnames⟩ :=
        validate_names_missing e.toBaseService params _ k0 hk0 hk0m
      rw [ec2Launch_invalid _ _ _ _ _ _ _ _ msg hv] at hout
      refine ⟨_, by rw [hout], rfl, by rw [hout], ?_, ?_, ?_, ?_⟩
      · intro _ _ _
        refine ⟨rfl, ?_⟩
        intro j hj hje
        exact hnames j hj (paramMissing_of_empty params j hje)
      · intro hno
        exact absurd hno (hstr _ _ hi)
      · intro _ hno
        exact absurd hno (hstr _ _ ht)
      · intro _ _ hno
        exact absurd hno (hstr _ _ hk)

theorem createResource_missing_required_witness :
    (∃ r, (S3Service.CreateResource { Region := "us-east-1", client := s3Accepting none }
        [("bucket_name", Value.str "")]).result = some r ∧ r.Success = false ∧
      r.Error = "ValidationError" ∧
      ∃ pre post : String, r.Message = pre ++ "bucket_name" ++ post) ∧
    (∃ r, (EC2Service.CreateResource (configFailing "unreachable")
        { Region := "us-east-1", client := ec2Accepting [] }
        [("image_id", Value.str ""), ("instance_type", Value.str "t2.micro"),
         ("key_name", Value.str "")]).result = some r ∧ r.Success = false ∧
      r.Error = "ValidationError" ∧
      (∃ pre post : String, r.Message = pre ++ "image_id" ++ post) ∧
      ∃ pre post : String, r.Message = pre ++ "key_name" ++ post) := by
  constructor
  · obtain ⟨r, hr, hs, -, hempty, -⟩ :=
      createResource_missing_required.1 { Region := "us-east-1", client := s3Accepting none }
        [("bucket_name", Value.str "")] (Or.inr (Or.inr rfl))
    exact ⟨r, hr, hs, (hempty rfl).1, (hempty rfl).2⟩
  · obtain ⟨r, hr, hs, -, hempty, -⟩ :=
      createResource_missing_required.2 (configFailing "unreachable")
        { Region := "us-east-1", client := ec2Accepting [] }
        [("image_id", Value.str ""), ("instance_type", Value.str "t2.micro"),
         ("key_name", Value.str "")]
        ⟨"image_id", by decide, Or.inr (Or.inr rfl)⟩
    have h := hempty
      (by
        intro k hk
        simp only [List.mem_cons, List.mem_singleton, List.not_mem_nil, or_false] at hk
        rcases hk with rfl | rfl | rfl
        · exact ⟨"", rfl⟩
        · exact ⟨"t2.micro", rfl⟩
        · exact ⟨"", rfl⟩)
      (by decide)
      (by
        intro region hreg
        cases hreg)
    exact ⟨r, hr, hs, h.1, h.2 "image_id" (by decide) rfl, h.2 "key_name" (by decide) rfl⟩

/-! ## C2, C3: classification of provider failures -/

/-- C2 (code evaluated at the failing inputs). `containsError` does not look for the error
type inside the message: it only tests that both strings are non-empty. A bucket-creation
failure whose text is `AccessDenied` is reported as `BucketAlreadyExists`, and so is one whose
text is `BucketAlreadyOwnedByYou`; only the empty error text reaches `UnknownError`. -/
theorem s3_failure_always_bucketAlreadyExists :
    (∀ m : String, containsError m "BucketAlreadyExists" = decide (0 < m.length)) ∧
    (S3Service.CreateResource { Region := "us-east-1", client := s3Failing "AccessDenied" }
        [("bucket_name", Value.str "logs-2024")]).result
      = some { Success := false, Error := "BucketAlreadyExists",
               Message := "Bucket 'logs-2024' already exists and is owned by another account" } ∧
    (S3Service.CreateResource
        { Region := "us-east-1", client := s3Failing "BucketAlreadyOwnedByYou" }
        [("bucket_name", Value.str "logs-2024")]).result
      = some { Success := false, Error := "BucketAlreadyExists",
               Message := "Bucket 'logs-2024' already exists and is owned by another account" } ∧
    (S3Service.CreateResource { Region := "us-east-1", client := s3Failing "" }
        [("bucket_name", Value.str "logs-2024")]).result
      = some { Success := false, Error := "UnknownError",
               Message := "Failed to create bucket: " } := by
  refine ⟨?_, by decide, by decide, by decide⟩
  intro m
  have h : decide ("BucketAlreadyExists".length > 0) = true := by decide
  simp only [containsError, h, Bool.and_true, gt_iff_lt]

/-- C3 (code evaluated at the failing inputs). A run-instances failure whose text is
`UnauthorizedOperation`, and one whose text is `InvalidKeyPair.NotFound`, are both reported
as `InvalidAMIID`: `containsError` only tests that both strings are non-empty. -/
theorem ec2_failure_always_invalidAMIID :
    (∀ m : String, containsError m "InvalidAMIID" = decide (0 < m.length)) ∧
    (EC2Service.CreateResource (configFailing "unreachable")
        { Region := "us-east-1", client := ec2Failing "UnauthorizedOperation" }
        [("image_id", Value.str "ami-x"), ("instance_type", Value.str "t2.micro"),
         ("key_name", Value.str "k")]).result
      = some { Success := false, Error := "InvalidAMIID",
               Message := "Invalid AMI ID: ami-x" } ∧
    (EC2Service.CreateResource (configFailing "unreachable")
        { Region := "us-east-1", client := ec2Failing "InvalidKeyPair.NotFound" }
        [("image_id", Value.str "ami-x"), ("instance_type", Value.str "t2.micro"),
         ("key_name", Value.str "k")]).result
      = some { Success := false, Error := "InvalidAMIID",
               Message := "Invalid AMI ID: ami-x" } := by
  refine ⟨?_, by decide, by decide⟩
  intro m
  have h : decide ("InvalidAMIID".length > 0) = true := by decide
  simp only [containsError, h, Bool.and_true, gt_iff_lt]

/-! ## Results of `CreateResource` -/

theorem s3_failure_record (m name : String) :
    (if containsError m "BucketAlreadyExists" then
      ({ Success := false, Error := "BucketAlreadyExists",
         Message := "Bucket '" ++ name ++
           "' already exists and is owned by another account" } : ResourceResult)
    else if containsError m "BucketAlreadyOwnedByYou" then
      { Success := false, Error := "BucketAlreadyOwnedByYou",
        Message := "Bucket '" ++ name ++ "' already exists and is owned by you" }
    else
      { Success := false, Error := "UnknownError",
        Message := "Failed to create bucket: " ++ m }).Success = false := by
  split_ifs <;> rfl

theorem ec2_failure_record (m i k : String) :
    (if containsError m "InvalidAMIID" then
      ({ Success := false, Error := "InvalidAMIID",
         Message := "Invalid AMI ID: " ++ i } : ResourceResult)
    else if containsError m "InvalidKeyPair" then
      { Success := false, Error := "InvalidKeyPair",
        Message := "Invalid key pair: " ++ k }
    else
      { Success := false, Error := "UnknownError",
        Message := "Failed to launch instances: " ++ m }).Success = false := by
  split_ifs <;> rfl

/-- The bucket service always returns a result and never a Go error. -/
theorem s3_result_total (s : S3Service) (params : Params) :
    ∃ r, (s.CreateResource params).result = some r ∧ (s.CreateResource params).err = none := by
  rcases s3_create_cases s params with ⟨-, hout⟩ | ⟨-, hout⟩ |
    ⟨name, -, -, ⟨m, -, hout⟩ | ⟨out, -, hout⟩⟩ <;>
  exact ⟨_, by rw [hout], by rw [hout]⟩

/-- A successful result of the bucket service comes from the last path of the function. -/
theorem s3_success_inv (s : S3Service) (params : Params) (r : ResourceResult)
    (hr : (s.CreateResource params).result = some r) (hs : r.Success = true) :
    ∃ name out, params.lookup "bucket_name" = some (Value.str name) ∧ name ≠ "" ∧
      s.client (bucketInput name (targetRegionOf s.Region params)) = .ok out ∧
      (s.CreateResource params).calls = [bucketInput name (targetRegionOf s.Region params)] ∧
      r = { Success := true,
            Message := "Successfully created S3 bucket '" ++ name ++ "' in region '" ++
              targetRegionOf s.Region params ++ "'",
            Data := some [("bucket_name", Value.str name),
                          ("region", Value.str (targetRegionOf s.Region params)),
                          ("location", Value.str (awsToString out.Location))] } := by
  rcases s3_create_cases s params with ⟨-, hout⟩ | ⟨-, hout⟩ |
    ⟨name, hb, hn, ⟨m, -, hout⟩ | ⟨out, hcall, hout⟩⟩
  · rw [hout] at hr
    cases hr
    cases hs
  · rw [hout] at hr
    cases hr
    cases hs
  · rw [hout] at hr
    simp only [Option.some.injEq] at hr
    rw [← hr, s3_failure_record] at hs
    cases hs
  · refine ⟨name, out, hb, hn, hcall, by rw [hout], ?_⟩
    rw [hout] at hr
    simp only [Option.some.injEq] at hr
    exact hr.symm

/-- A failed result of the bucket service that made a provider call. -/
theorem s3_failure_of_call_error (s : S3Service) (params : Params) (r : ResourceResult)
    (hr : (s.CreateResource params).result = some r)
    (h : ∃ input ∈ (s.CreateResource params).calls, ∃ m, s.client input = .error m) :
    r.Success = false := by
  cases hsucc : r.Success with
  | false => rfl
  | true =>
    obtain ⟨name, out, -, -, hcall, hcalls, -⟩ := s3_success_inv s params r hr hsucc
    obtain ⟨input, hin, m, hm⟩ := h
    rw [hcalls, List.mem_singleton] at hin
    rw [hin, hcall] at hm
    cases hm

theorem instanceMaps_eq_none_iff (instances : List Instance) :
    instanceMaps instances = none ↔ ∃ inst ∈ instances, inst.State = none := by
  induction instances with
  | nil => simp [instanceMaps]
  | cons inst rest ih =>
    unfold instanceMaps
    cases hs : inst.State with
    | none => simp [hs]
    | some state =>
      cases hm : instanceMaps rest with
      | none =>
        have := ih.1 hm
        simp [hs, this]
      | some maps =>
        have hno : ¬ ∃ x ∈ rest, x.State = none := fun h => by
          have := ih.2 h
          rw [hm] at this
          cases this
        simp only [List.mem_cons, exists_eq_or_imp, hs, false_or]
        simpa using hno

/-- The instance service either aborts with a panic, returning nothing, or returns a result
and no Go error. -/
theorem ec2_result_total (load : String → Except String EC2Client) (e : EC2Service)
    (params : Params) :
    ((EC2Service.CreateResource load e params).panicked = true ∧
      (EC2Service.CreateResource load e params).result = none ∧
      (EC2Service.CreateResource load e params).err = none) ∨
    (∃ r, (EC2Service.CreateResource load e params).result = some r ∧
      (EC2Service.CreateResource load e params).err = none ∧
      (EC2Service.CreateResource load e params).panicked = false) := by
  rcases ec2_create_cases load e params with
    ⟨-, hout⟩ | ⟨i, -, -, hout⟩ | ⟨i, t, -, -, -, hout⟩ |
    ⟨i, t, k, -, -, -, ⟨-, hout⟩ | ⟨-, region, m, -, -, -, hout⟩ | ⟨-, -, client, hout⟩⟩
  · exact Or.inr ⟨_, by rw [hout], by rw [hout], by rw [hout]⟩
  · exact Or.inr ⟨_, by rw [hout], by rw [hout], by rw [hout]⟩
  · exact Or.inr ⟨_, by rw [hout], by rw [hout], by rw [hout]⟩
  · exact Or.inr ⟨_, by rw [hout], by rw [hout], by rw [hout]⟩
  · exact Or.inr ⟨_, by rw [hout], by rw [hout], by rw [hout]⟩
  · rcases ec2Launch_cases e.toBaseService client params i t k (resolveCount params)
      (targetRegionOf e.Region params) with
      ⟨msg, -, hl⟩ | ⟨-, ⟨m, -, hl⟩ | ⟨out, -, maps, -, hl⟩ | ⟨out, -, -, hl⟩⟩
    · exact Or.inr ⟨_, by rw [hout, hl], by rw [hout, hl], by rw [hout, hl]⟩
    · exact Or.inr ⟨_, by rw [hout, hl], by rw [hout, hl], by rw [hout, hl]⟩
    · exact Or.inr ⟨_, by rw [hout, hl], by rw [hout, hl], by rw [hout, hl]⟩
    · exact Or.inl ⟨by rw [hout, hl], by rw [hout, hl], by rw [hout, hl]⟩

/-- A panic of the instance service comes from the loop over the reported instances: every
check passed, the one provider call succeeded, and some reported instance has no state. -/
theorem ec2_panic_inv (load : String → Except String EC2Client) (e : EC2Service)
    (params : Params) (hp : (EC2Service.CreateResource load e params).panicked = true) :
    ∃ i t k out, params.lookup "image_id" = some (Value.str i) ∧
      params.lookup "instance_type" = some (Value.str t) ∧
      params.lookup "key_name" = some (Value.str k) ∧
      (EC2Service.CreateResource load e params).client
        (runInput i t k (resolveCount params)) = .ok out ∧
      (EC2Service.CreateResource load e params).calls
        = [runInput i t k (resolveCount params)] ∧
      ∃ inst ∈ out.Instances, inst.State = none := by
  rcases ec2_create_cases load e params with
    ⟨-, hout⟩ | ⟨i, -, -, hout⟩ | ⟨i, t, -, -, -, hout⟩ |
    ⟨i, t, k, hi, ht, hk, ⟨-, hout⟩ | ⟨-, region, m, -, -, -, hout⟩ |
      ⟨hc, hcfg, client, hout⟩⟩
  · rw [hout] at hp; cases hp
  · rw [hout] at hp; cases hp
  · rw [hout] at hp; cases hp
  · rw [hout] at hp; cases hp
  · rw [hout] at hp; cases hp
  · rcases ec2Launch_cases e.toBaseService client params i t k (resolveCount params)
      (targetRegionOf e.Region params) with
      ⟨msg, -, hl⟩ | ⟨-, ⟨m, -, hl⟩ | ⟨out, -, maps, -, hl⟩ | ⟨out, hcall, hmaps, hl⟩⟩
    · rw [hout, hl] at hp; cases hp
    · rw [hout, hl] at hp; cases hp
    · rw [hout, hl] at hp; cases hp
    · refine ⟨i, t, k, out, (assertString_some_iff _ _).1 hi, (assertString_some_iff _ _).1 ht,
        (assertString_some_iff _ _).1 hk, ?_, ?_, (instanceMaps_eq_none_iff _).1 hmaps⟩
      · rw [hout, hl]
        exact hcall
      · rw [hout, hl]

/-- A successful result of the instance service comes from the last path of the function:
the three required fields are non-empty strings, the count is at least 1, a region override
found its configuration, and the one provider call succeeded. -/
theorem ec2_success_inv (load : String → Except String EC2Client) (e : EC2Service)
    (params : Params) (r : ResourceResult)
    (hr : (EC2Service.CreateResource load e params).result = some r)
    (hs : r.Success = true) :
    ∃ i t k out maps, params.lookup "image_id" = some (Value.str i) ∧
      params.lookup "instance_type" = some (Value.str t) ∧
      params.lookup "key_name" = some (Value.str k) ∧
      i ≠ "" ∧ t ≠ "" ∧ k ≠ "" ∧
      1 ≤ resolveCount params ∧
      instanceMaps out.Instances = some maps ∧
      (∀ region, assertString (params.lookup "region") = some region → region ≠ "" →
        ∃ c, load region = .ok c) ∧
      (EC2Service.CreateResource load e params).client
        (runInput i t k (resolveCount params)) = .ok out ∧
      (EC2Service.CreateResource load e params).calls
        = [runInput i t k (resolveCount params)] ∧
      r = { Success := true,
            Message := "Successfully launched " ++ toString (resolveCount params) ++
              " EC2 instance(s) in region '" ++ targetRegionOf e.Region params ++ "'",
            Data := some [("instances", Value.mapSlice maps),
                          ("region", Value.str (targetRegionOf e.Region params)),
                          ("image_id", Value.str i),
                          ("instance_type", Value.str t),
                          ("key_name", Value.str k),
                          ("count", Value.int (resolveCount params))] } := by
  rcases ec2_create_cases load e params with
    ⟨-, hout⟩ | ⟨i, -, -, hout⟩ | ⟨i, t, -, -, -, hout⟩ |
    ⟨i, t, k, hi, ht, hk, ⟨-, hout⟩ | ⟨-, region, m, -, -, -, hout⟩ |
      ⟨hc, hcfg, client, hout⟩⟩
  · rw [hout] at hr; cases hr; cases hs
  · rw [hout] at hr; cases hr; cases hs
  · rw [hout] at hr; cases hr; cases hs
  · rw [hout] at hr; cases hr; cases hs
  · rw [hout] at hr; cases hr; cases hs
  · have hi2 := (assertString_some_iff _ _).1 hi
    have ht2 := (assertString_some_iff _ _).1 ht
    have hk2 := (assertString_some_iff _ _).1 hk
    rcases ec2Launch_cases e.toBaseService client params i t k (resolveCount params)
      (targetRegionOf e.Region params) with
      ⟨msg, -, hl⟩ | ⟨hv, ⟨m, -, hl⟩ | ⟨out, hcall, maps, hmaps, hl⟩ | ⟨out, -, -, hl⟩⟩
    · rw [hout, hl] at hr; cases hr; cases hs
    · rw [hout, hl] at hr
      simp only [Option.some.injEq] at hr
      rw [← hr, ec2_failure_record] at hs
      cases hs
    rotate_left
    · rw [hout, hl] at hr; cases hr
    · have hpresent := (validate_none_iff e.toBaseService params
        ["image_id", "instance_type", "key_name"]).1 hv
      have hne : ∀ key v, key ∈ ["image_id", "instance_type", "key_name"] →
          params.lookup key = some (Value.str v) → v ≠ "" := by
        intro key v hkey hv2 hempty
        obtain ⟨w, hw, -, hw2⟩ := hpresent key hkey
        rw [hv2, hempty] at hw
        cases hw
        exact hw2 rfl
      refine ⟨i, t, k, out, maps, hi2, ht2, hk2, hne _ _ (by simp) hi2,
        hne _ _ (by simp) ht2, hne _ _ (by simp) hk2, hc, hmaps, hcfg, ?_, ?_, ?_⟩
      · rw [hout, hl]
        exact hcall
      · rw [hout, hl]
      · rw [hout, hl] at hr
        simp only [Option.some.injEq] at hr
        exact hr.symm

/-! ## C4: one failure channel -/

/-- C4 (code evaluated at the failing input, and what holds elsewhere). When the provider
accepts the request and reports an instance whose `State` is nil, the instance service
dereferences it (`ec2.go` line 157) and panics: it returns neither a result nor an error. In
every other case the claim holds: the bucket service always, and the instance service
whenever it does not panic, return a non-nil result and a nil error, and a required field
that is not a non-empty string, a count below 1, a failed client rebuild and a failed
provider call each give `success=false`; a panic only occurs after a successful provider
call that reported an instance without a state. -/
theorem ec2_createResource_panics_without_state :
    ((EC2Service.CreateResource (configFailing "unreachable")
        { Region := "us-east-1",
          client := ec2Accepting [{ InstanceId := some "i-0abc", State := none,
                                    ImageId := some "ami-x", InstanceType := "t2.micro",
                                    KeyName := some "k" }] }
        [("image_id", Value.str "ami-x"), ("instance_type", Value.str "t2.micro"),
         ("key_name", Value.str "k")]).panicked = true ∧
     (EC2Service.CreateResource (configFailing "unreachable")
        { Region := "us-east-1",
          client := ec2Accepting [{ InstanceId := some "i-0abc", State := none,
                                    ImageId := some "ami-x", InstanceType := "t2.micro",
                                    KeyName := some "k" }] }
        [("image_id", Value.str "ami-x"), ("instance_type", Value.str "t2.micro"),
         ("key_name", Value.str "k")]).result = none ∧
     (EC2Service.CreateResource (configFailing "unreachable")
        { Region := "us-east-1",
          client := ec2Accepting [{ InstanceId := some "i-0abc", State := none,
                                    ImageId := some "ami-x", InstanceType := "t2.micro",
                                    KeyName := some "k" }] }
        [("image_id", Value.str "ami-x"), ("instance_type", Value.str "t2.micro"),
         ("key_name", Value.str "k")]).err = none) ∧
    (∀ (s : S3Service) (params : Params), ∃ r,
      (s.CreateResource params).result = some r ∧ (s.CreateResource params).err = none ∧
      ((¬ ∃ v, params.lookup "bucket_name" = some (Value.str v) ∧ v ≠ "") →
        r.Success = false) ∧
      ((∃ input ∈ (s.CreateResource params).calls, ∃ m, s.client input = .error m) →
        r.Success = false)) ∧
    (∀ (load : String → Except String EC2Client) (e : EC2Service) (params : Params),
      ((EC2Service.CreateResource load e params).panicked = true ∧
        (EC2Service.CreateResource load e params).result = none ∧
        (EC2Service.CreateResource load e params).err = none ∧
        ∃ input out, (EC2Service.CreateResource load e params).calls = [input] ∧
          (EC2Service.CreateResource load e params).client input = .ok out ∧
          ∃ inst ∈ out.Instances, inst.State = none) ∨
      (∃ r, (EC2Service.CreateResource load e params).result = some r ∧
        (EC2Service.CreateResource load e params).err = none ∧
        (EC2Service.CreateResource load e params).panicked = false ∧
        ((∃ k ∈ ["image_id", "instance_type", "key_name"],
            ¬ ∃ v, params.lookup k = some (Value.str v) ∧ v ≠ "") → r.Success = false) ∧
        (resolveCount params < 1 → r.Success = false) ∧
        ((∃ region m, assertString (params.lookup "region") = some region ∧ region ≠ "" ∧
            load region = .error m) → r.Success = false) ∧
        ((∃ input ∈ (EC2Service.CreateResource load e params).calls, ∃ m,
            (EC2Service.CreateResource load e params).client input = .error m) →
          r.Success = false))) := by
  refine ⟨⟨by decide, by decide, by decide⟩, ?_, ?_⟩
  · intro s params
    obtain ⟨r, hr, herr⟩ := s3_result_total s params
    refine ⟨r, hr, herr, ?_, s3_failure_of_call_error s params r hr⟩
    intro hbad
    cases hsucc : r.Success with
    | false => rfl
    | true =>
      obtain ⟨name, out, hb, hn, -⟩ := s3_success_inv s params r hr hsucc
      exact absurd ⟨name, hb, hn⟩ hbad
  · intro load e params
    rcases ec2_result_total load e params with ⟨hp, hres, herr⟩ | ⟨r, hr, herr, hnp⟩
    · left
      obtain ⟨i, t, k, out, -, -, -, hcall, hcalls, hinst⟩ := ec2_panic_inv load e params hp
      exact ⟨hp, hres, herr, _, out, hcalls, hcall, hinst⟩
    right
    refine ⟨r, hr, herr, hnp, ?_, ?_, ?_, ?_⟩
    · rintro ⟨key, hkey, hbad⟩
      cases hsucc : r.Success with
      | false => rfl
      | true =>
        obtain ⟨i, t, k, out, maps, hi, ht, hk, hi0, ht0, hk0, -⟩ :=
          ec2_success_inv load e params r hr hsucc
        simp only [List.mem_cons, List.mem_singleton, List.not_mem_nil, or_false] at hkey
        rcases hkey with rfl | rfl | rfl
        · exact absurd ⟨i, hi, hi0⟩ hbad
        · exact absurd ⟨t, ht, ht0⟩ hbad
        · exact absurd ⟨k, hk, hk0⟩ hbad
    · intro hcount
      cases hsucc : r.Success with
      | false => rfl
      | true =>
        obtain ⟨i, t, k, out, maps, -, -, -, -, -, -, hc, -⟩ :=
          ec2_success_inv load e params r hr hsucc
        exact absurd hcount (not_lt.2 hc)
    · rintro ⟨region, m, hreg, hne, hload⟩
      cases hsucc : r.Success with
      | false => rfl
      | true =>
        obtain ⟨i, t, k, out, maps, -, -, -, -, -, -, -, -, hcfg, -⟩ :=
          ec2_success_inv load e params r hr hsucc
        obtain ⟨c, hc⟩ := hcfg region hreg hne
        rw [hload] at hc
        cases hc
    · rintro ⟨input, hin, m, hm⟩
      cases hsucc : r.Success with
      | false => rfl
      | true =>
        obtain ⟨i, t, k, out, maps, -, -, -, -, -, -, -, -, -, hcall, hcalls, -⟩ :=
          ec2_success_inv load e params r hr hsucc
        rw [hcalls, List.mem_singleton] at hin
        rw [hin, hcall] at hm
        cases hm

/-! ## C5, C10: the bucket request and the success payload -/

/-- The region computed by the source is the effective region as the specification words
it: the params `region` when that is a non-empty string, else the bound region. -/
theorem targetRegionOf_eq (bound : String) (params : Params) (r : String)
    (hr : (∃ region, params.lookup "region" = some (Value.str region) ∧ region ≠ "" ∧
            r = region) ∨
          ((¬ ∃ region, params.lookup "region" = some (Value.str region) ∧ region ≠ "") ∧
            r = bound)) :
    targetRegionOf bound params = r := by
  unfold targetRegionOf
  rcases hr with ⟨region, hl, hne, rfl⟩ | ⟨hno, rfl⟩
  · rw [(assertString_some_iff _ _).2 hl]
    simp [hne]
  · cases ha : assertString (params.lookup "region") with
    | none => rfl
    | some region =>
      by_cases hne : region = ""
      · simp [hne]
      · exact absurd ⟨region, (assertString_some_iff _ _).1 ha, hne⟩ hno

theorem s3_calls_of_valid (s : S3Service) (params : Params) (name : String)
    (hb : params.lookup "bucket_name" = some (Value.str name)) (hn : name ≠ "") :
    (s.CreateResource params).calls = [bucketInput name (targetRegionOf s.Region params)] := by
  rcases s3_create_cases s params with ⟨hno, -⟩ | ⟨hempty, -⟩ |
    ⟨name2, hb2, -, ⟨m, -, hout⟩ | ⟨out, -, hout⟩⟩
  · rw [(assertString_some_iff _ _).2 hb] at hno
    cases hno
  · rw [hb] at hempty
    simp only [Option.some.injEq, Value.str.injEq] at hempty
    exact absurd hempty hn
  · rw [hb] at hb2
    simp only [Option.some.injEq, Value.str.injEq] at hb2
    subst hb2
    rw [hout]
  · rw [hb] at hb2
    simp only [Option.some.injEq, Value.str.injEq] at hb2
    subst hb2
    rw [hout]

/-- C5 (as stated, refuted). A service bound to the empty region, asked for a bucket without
a region override, has the effective region `""`, which is not `us-east-1`; the request it
sends carries no location constraint rather than the constraint `""`. -/
theorem createBucket_empty_region_no_constraint :
    targetRegionOf "" [("bucket_name", Value.str "logs-2024")] = "" ∧
    (S3Service.CreateResource { Region := "", client := s3Accepting none }
        [("bucket_name", Value.str "logs-2024")]).calls
      = [{ Bucket := some "logs-2024", CreateBucketConfiguration := none }] ∧
    ¬ ∃ input ∈ (S3Service.CreateResource { Region := "", client := s3Accepting none }
        [("bucket_name", Value.str "logs-2024")]).calls,
      input.CreateBucketConfiguration = some { LocationConstraint := "" } := by
  decide

/-- C5 (amended). For a bucket-creation request whose `bucket_name` is a non-empty string,
with effective region `r` (the params region when it is a non-empty string, else the bound
region): exactly one CreateBucket request is sent, for that bucket; if `r` is `us-east-1` or
the empty string it carries no location constraint, and for every other `r` it carries the
location constraint `r`. -/
theorem createBucket_location_constraint (s : S3Service) (params : Params) (name r : String)
    (hb : params.lookup "bucket_name" = some (Value.str name)) (hn : name ≠ "")
    (hr : (∃ region, params.lookup "region" = some (Value.str region) ∧ region ≠ "" ∧
            r = region) ∨
          ((¬ ∃ region, params.lookup "region" = some (Value.str region) ∧ region ≠ "") ∧
            r = s.Region)) :
    ∃ input, (s.CreateResource params).calls = [input] ∧ input.Bucket = some name ∧
      (r = "us-east-1" ∨ r = "" → input.CreateBucketConfiguration = none) ∧
      (r ≠ "us-east-1" → r ≠ "" →
        input.CreateBucketConfiguration = some { LocationConstraint := r }) := by
  refine ⟨bucketInput name r, ?_, rfl, ?_, ?_⟩
  · rw [s3_calls_of_valid s params name hb hn, targetRegionOf_eq s.Region params r hr]
  · intro h
    unfold bucketInput
    rcases h with h | h <;> simp [h]
  · intro h1 h2
    unfold bucketInput
    simp [h1, h2]

theorem createBucket_location_constraint_witness :
    ∃ input, (S3Service.CreateResource { Region := "us-east-1", client := s3Accepting none }
        [("bucket_name", Value.str "logs-2024"), ("region", Value.str "sa-east-1")]).calls
        = [input] ∧
      input.CreateBucketConfiguration = some { LocationConstraint := "sa-east-1" } := by
  obtain ⟨input, hcalls, -, -, hother⟩ :=
    createBucket_location_constraint { Region := "us-east-1", client := s3Accepting none }
      [("bucket_name", Value.str "logs-2024"), ("region", Value.str "sa-east-1")]
      "logs-2024" "sa-east-1" rfl (by decide) (Or.inl ⟨"sa-east-1", rfl, by decide, rfl⟩)
  exact ⟨input, hcalls, hother (by decide) (by decide)⟩

/-- C10. For a bucket-creation request whose `bucket_name` is a non-empty string and whose
provider call succeeds with output `out`, the result has `success=true` and its data holds
`bucket_name` equal to the input name, `region` equal to the effective region (the params
region when it is a non-empty string, else the bound region) and `location` equal to the
locator of `out`, the empty string when there is none. -/
theorem createBucket_success_data (s : S3Service) (params : Params) (name r : String)
    (out : CreateBucketOutput)
    (hb : params.lookup "bucket_name" = some (Value.str name)) (hn : name ≠ "")
    (hr : (∃ region, params.lookup "region" = some (Value.str region) ∧ region ≠ "" ∧
            r = region) ∨
          ((¬ ∃ region, params.lookup "region" = some (Value.str region) ∧ region ≠ "") ∧
            r = s.Region))
    (hcall : ∀ input ∈ (s.CreateResource params).calls, s.client input = .ok out) :
    ∃ res, (s.CreateResource params).result = some res ∧
      (s.CreateResource params).err = none ∧ res.Success = true ∧
      res.Data = some [("bucket_name", Value.str name), ("region", Value.str r),
                       ("location", Value.str (out.Location.getD ""))] := by
  have hcalls := s3_calls_of_valid s params name hb hn
  have hreg := targetRegionOf_eq s.Region params r hr
  rw [hreg] at hcalls
  have hok := hcall (bucketInput name r) (by rw [hcalls]; exact List.mem_singleton.2 rfl)
  rcases s3_create_cases s params with ⟨hno, -⟩ | ⟨hempty, -⟩ |
    ⟨name2, hb2, -, ⟨m, hcall2, -⟩ | ⟨out2, hcall2, hout⟩⟩
  · rw [(assertString_some_iff _ _).2 hb] at hno
    cases hno
  · rw [hb] at hempty
    simp only [Option.some.injEq, Value.str.injEq] at hempty
    exact absurd hempty hn
  · rw [hb] at hb2
    simp only [Option.some.injEq, Value.str.injEq] at hb2
    subst hb2
    rw [hreg, hok] at hcall2
    cases hcall2
  · rw [hb] at hb2
    simp only [Option.some.injEq, Value.str.injEq] at hb2
    subst hb2
    rw [hreg, hok] at hcall2
    simp only [Except.ok.injEq] at hcall2
    subst hcall2
    rw [hreg] at hout
    refine ⟨_, by rw [hout], by rw [hout], rfl, ?_⟩
    cases hloc : out.Location <;> simp [awsToString, hloc]

theorem createBucket_success_data_witness :
    ∃ res, (S3Service.CreateResource
        { Region := "us-east-1", client := s3Accepting (some "/logs-2024") }
        [("bucket_name", Value.str "logs-2024")]).result = some res ∧
      res.Success = true ∧
      res.Data = some [("bucket_name", Value.str "logs-2024"),
                       ("region", Value.str "us-east-1"),
                       ("location", Value.str "/logs-2024")] := by
  obtain ⟨res, hres, -, hs, hdata⟩ :=
    createBucket_success_data
      { Region := "us-east-1", client := s3Accepting (some "/logs-2024") }
      [("bucket_name", Value.str "logs-2024")] "logs-2024" "us-east-1"
      { Location := some "/logs-2024" } rfl (by decide)
      (Or.inr ⟨(by
        rintro ⟨region, hl, -⟩
        cases hl), rfl⟩)
      (by
        intro input _
        rfl)
  exact ⟨res, hres, hs, hdata⟩


/-! ## `Atoi` on decimal renderings -/

theorem ec2_count_rejected (load : String → Except String EC2Client) (e : EC2Service)
    (params : Params) (i t k : String)
    (hi : params.lookup "image_id" = some (Value.str i))
    (ht : params.lookup "instance_type" = some (Value.str t))
    (hk : params.lookup "key_name" = some (Value.str k))
    (hc : resolveCount params < 1) :
    EC2Service.CreateResource load e params =
      { result := some { Success := false, Error := "ValidationError",
                         Message := "Count must be at least 1" },
        err := none, calls := [], client := e.client } := by
  have hi2 := (assertString_some_iff _ _).2 hi
  have ht2 := (assertString_some_iff _ _).2 ht
  have hk2 := (assertString_some_iff _ _).2 hk
  unfold EC2Service.CreateResource
  simp only [hi2, ht2, hk2, hc, if_true]

/-- The conversion `int32(_)` keeps a value that fits in 32 bits. -/
theorem toInt32_of_fits (n : Int) (hlo : -(2 : Int) ^ 31 ≤ n) (hhi : n < (2 : Int) ^ 31) :
    toInt32 n = n := by
  unfold toInt32
  have h : (n + (2 : Int) ^ 31) % (2 : Int) ^ 32 = n + (2 : Int) ^ 31 :=
    Int.emod_eq_of_lt (by omega) (by omega)
  omega

/-- C7 (code evaluated at the failing input). The count 4294967297 is a Go `int`; the request
the instance service sends carries `MinCount = MaxCount = 1`, the low 32 bits of the count,
while the result reports `data.count = 4294967297` and the message says that 4294967297
instances were launched. -/
theorem runInstances_count_truncated :
    isGoInt 4294967297 ∧
    (EC2Service.CreateResource (configFailing "unreachable")
        { Region := "us-east-1", client := ec2Accepting [] }
        [("image_id", Value.str "ami-x"), ("instance_type", Value.str "t2.micro"),
         ("key_name", Value.str "k"), ("count", Value.int 4294967297)]).calls
      = [{ ImageId := some "ami-x", MinCount := some 1, MaxCount := some 1,
           InstanceType := "t2.micro", KeyName := some "k" }] ∧
    (EC2Service.CreateResource (configFailing "unreachable")
        { Region := "us-east-1", client := ec2Accepting [] }
        [("image_id", Value.str "ami-x"), ("instance_type", Value.str "t2.micro"),
         ("key_name", Value.str "k"), ("count", Value.int 4294967297)]).result
      = some { Success := true,
               Message := "Successfully launched 4294967297 EC2 instance(s) in region 'us-east-1'",
               Data := some [("instances", Value.mapSlice []),
                             ("region", Value.str "us-east-1"),
                             ("image_id", Value.str "ami-x"),
                             ("instance_type", Value.str "t2.micro"),
                             ("key_name", Value.str "k"),
                             ("count", Value.int 4294967297)] } := by
  refine ⟨by decide, by decide, by rfl⟩

/-! ## C8: shape of every result -/

theorem append_ne_empty (a b : String) (h : a ≠ "") : a ++ b ≠ "" := by
  intro hab
  apply h
  have hlen := congrArg String.length hab
  rw [String.length_append] at hlen
  have ha : a.length = 0 := by
    have : "".length = 0 := rfl
    omega
  rcases a with ⟨l⟩
  cases l with
  | nil => rfl
  | cons c cs => simp [String.length] at ha

theorem validate_msg_ne_empty (b : BaseService) (params : Params) (required : List String)
    (msg : String) (h : b.ValidateRequiredParams params required = some msg) : msg ≠ "" := by
  rw [validate_eq] at h
  split_ifs at h
  simp only [Option.some.injEq] at h
  rw [← h]
  exact append_ne_empty _ _ (by decide)

theorem s3_failure_record_filled (m name : String) :
    (if containsError m "BucketAlreadyExists" then
      ({ Success := false, Error := "BucketAlreadyExists",
         Message := "Bucket '" ++ name ++
           "' already exists and is owned by another account" } : ResourceResult)
    else if containsError m "BucketAlreadyOwnedByYou" then
      { Success := false, Error := "BucketAlreadyOwnedByYou",
        Message := "Bucket '" ++ name ++ "' already exists and is owned by you" }
    else
      { Success := false, Error := "UnknownError",
        Message := "Failed to create bucket: " ++ m }).Message ≠ "" ∧
    (if containsError m "BucketAlreadyExists" then
      ({ Success := false, Error := "BucketAlreadyExists",
         Message := "Bucket '" ++ name ++
           "' already exists and is owned by another account" } : ResourceResult)
    else if containsError m "BucketAlreadyOwnedByYou" then
      { Success := false, Error := "BucketAlreadyOwnedByYou",
        Message := "Bucket '" ++ name ++ "' already exists and is owned by you" }
    else
      { Success := false, Error := "UnknownError",
        Message := "Failed to create bucket: " ++ m }).Error ≠ "" := by
  split_ifs
  · exact ⟨by
      show "Bucket '" ++ name ++ "' already exists and is owned by another account" ≠ ""
      rw [String.append_assoc]
      exact append_ne_empty _ _ (by decide), (by decide : "BucketAlreadyExists" ≠ "")⟩
  · exact ⟨by
      show "Bucket '" ++ name ++ "' already exists and is owned by you" ≠ ""
      rw [String.append_assoc]
      exact append_ne_empty _ _ (by decide), (by decide : "BucketAlreadyOwnedByYou" ≠ "")⟩
  · exact ⟨append_ne_empty _ _ (by decide), (by decide : "UnknownError" ≠ "")⟩

theorem ec2_failure_record_filled (m i k : String) :
    (if containsError m "InvalidAMIID" then
      ({ Success := false, Error := "InvalidAMIID",
         Message := "Invalid AMI ID: " ++ i } : ResourceResult)
    else if containsError m "InvalidKeyPair" then
      { Success := false, Error := "InvalidKeyPair",
        Message := "Invalid key pair: " ++ k }
    else
      { Success := false, Error := "UnknownError",
        Message := "Failed to launch instances: " ++ m }).Message ≠ "" ∧
    (if containsError m "InvalidAMIID" then
      ({ Success := false, Error := "InvalidAMIID",
         Message := "Invalid AMI ID: " ++ i } : ResourceResult)
    else if containsError m "InvalidKeyPair" then
      { Success := false, Error := "InvalidKeyPair",
        Message := "Invalid key pair: " ++ k }
    else
      { Success := false, Error := "UnknownError",
        Message := "Failed to launch instances: " ++ m }).Error ≠ "" := by
  split_ifs
  · exact ⟨append_ne_empty _ _ (by decide), (by decide : "InvalidAMIID" ≠ "")⟩
  · exact ⟨append_ne_empty _ _ (by decide), (by decide : "InvalidKeyPair" ≠ "")⟩
  · exact ⟨append_ne_empty _ _ (by decide), (by decide : "UnknownError" ≠ "")⟩

/-- C8. Every result returned by `CreateResource` of either service, for every parameter map
and every behaviour of the provider and the configuration loader, satisfies: `success=false`
implies a non-empty message and a non-empty error kind; `success=true` implies an empty error
kind and a present data map. The bucket service always returns a result; the instance service
returns one unless it panics, in which case it returns nothing. -/
theorem createResource_result_invariant :
    (∀ (s : S3Service) (params : Params), ∃ r,
      (s.CreateResource params).result = some r ∧
      (r.Success = false → r.Message ≠ "" ∧ r.Error ≠ "") ∧
      (r.Success = true → r.Error = "" ∧ r.Data ≠ none)) ∧
    (∀ (load : String → Except String EC2Client) (e : EC2Service) (params : Params),
      (∀ r, (EC2Service.CreateResource load e params).result = some r →
        (r.Success = false → r.Message ≠ "" ∧ r.Error ≠ "") ∧
        (r.Success = true → r.Error = "" ∧ r.Data ≠ none)) ∧
      ((EC2Service.CreateResource load e params).panicked = false →
        ∃ r, (EC2Service.CreateResource load e params).result = some r)) := by
  constructor
  · intro s params
    rcases s3_create_cases s params with ⟨-, hout⟩ | ⟨-, hout⟩ |
      ⟨name, -, -, ⟨m, -, hout⟩ | ⟨out, -, hout⟩⟩
    · exact ⟨_, by rw [hout], fun _ => ⟨by decide, by decide⟩, fun h => by cases h⟩
    · exact ⟨_, by rw [hout], fun _ => ⟨by decide, by decide⟩, fun h => by cases h⟩
    · refine ⟨_, by rw [hout], fun _ => s3_failure_record_filled m name, fun h => ?_⟩
      rw [s3_failure_record] at h
      cases h
    · exact ⟨_, by rw [hout], fun h => (by cases h), fun _ => ⟨rfl, by simp⟩⟩
  · intro load e params
    have key : ((EC2Service.CreateResource load e params).panicked = true ∧
          (EC2Service.CreateResource load e params).result = none) ∨
        ∃ r, (EC2Service.CreateResource load e params).result = some r ∧
          (r.Success = false → r.Message ≠ "" ∧ r.Error ≠ "") ∧
          (r.Success = true → r.Error = "" ∧ r.Data ≠ none) := by
      rcases ec2_create_cases load e params with
        ⟨-, hout⟩ | ⟨i, -, -, hout⟩ | ⟨i, t, -, -, -, hout⟩ |
        ⟨i, t, k, -, -, -, ⟨-, hout⟩ | ⟨-, region, m, -, -, -, hout⟩ |
          ⟨-, -, client, hout⟩⟩
      · exact Or.inr
          ⟨_, by rw [hout], fun _ => ⟨by decide, by decide⟩, fun h => by cases h⟩
      · exact Or.inr
          ⟨_, by rw [hout], fun _ => ⟨by decide, by decide⟩, fun h => by cases h⟩
      · exact Or.inr
          ⟨_, by rw [hout], fun _ => ⟨by decide, by decide⟩, fun h => by cases h⟩
      · exact Or.inr
          ⟨_, by rw [hout], fun _ => ⟨by decide, by decide⟩, fun h => by cases h⟩
      · right
        refine ⟨_, by rw [hout],
          fun _ => ⟨?_, (by decide : "ConfigurationError" ≠ "")⟩, fun h => by cases h⟩
        show "Failed to configure AWS client for region " ++ region ++ ": " ++ m ≠ ""
        rw [String.append_assoc, String.append_assoc]
        exact append_ne_empty _ _ (by decide)
      · rcases ec2Launch_cases e.toBaseService client params i t k (resolveCount params)
          (targetRegionOf e.Region params) with
          ⟨msg, hv, hl⟩ | ⟨-, ⟨m, -, hl⟩ | ⟨out, -, maps, -, hl⟩ | ⟨out, -, -, hl⟩⟩
        · exact Or.inr ⟨_, by rw [hout, hl],
            fun _ => ⟨validate_msg_ne_empty _ _ _ msg hv, (by decide : "ValidationError" ≠ "")⟩,
            fun h => by cases h⟩
        · right
          refine ⟨_, by rw [hout, hl], fun _ => ec2_failure_record_filled m i k, fun h => ?_⟩
          rw [ec2_failure_record] at h
          cases h
        · exact Or.inr
            ⟨_, by rw [hout, hl], fun h => (by cases h), fun _ => ⟨rfl, by simp⟩⟩
        · exact Or.inl ⟨by rw [hout, hl], by rw [hout, hl]⟩
    constructor
    · intro r hr
      rcases key with ⟨-, hnone⟩ | ⟨r2, hr2, hinv⟩
      · rw [hnone] at hr
        cases hr
      · rw [hr2] at hr
        cases hr
        exact hinv
    · intro hnp
      rcases key with ⟨hp, -⟩ | ⟨r2, hr2, -⟩
      · rw [hp] at hnp
        cases hnp
      · exact ⟨r2, hr2⟩

theorem createResource_result_invariant_witness :
    (∃ r, (S3Service.CreateResource { Region := "us-east-1", client := s3Failing "" }
        [("bucket_name", Value.str "logs-2024")]).result = some r ∧
      r.Success = false ∧ r.Message ≠ "" ∧ r.Error ≠ "") ∧
    (∃ r, (EC2Service.CreateResource (configFailing "unreachable")
        { Region := "us-east-1", client := ec2Accepting [] }
        [("image_id", Value.str "ami-x"), ("instance_type", Value.str "t2.micro"),
         ("key_name", Value.str "k"), ("count", Value.int 3)]).result = some r ∧
      r.Success = true ∧ r.Error = "" ∧ r.Data ≠ none) := by
  constructor
  · obtain ⟨r, hr, hfail, -⟩ :=
      createResource_result_invariant.1 { Region := "us-east-1", client := s3Failing "" }
        [("bucket_name", Value.str "logs-2024")]
    have hs : r.Success = false := by
      have h : (S3Service.CreateResource { Region := "us-east-1", client := s3Failing "" }
          [("bucket_name", Value.str "logs-2024")]).result
          = some { Success := false, Error := "UnknownError",
                   Message := "Failed to create bucket: " } := by decide
      rw [h] at hr
      cases hr
      rfl
    exact ⟨r, hr, hs, hfail hs⟩
  · obtain ⟨hinv, hex⟩ :=
      createResource_result_invariant.2 (configFailing "unreachable")
        { Region := "us-east-1", client := ec2Accepting [] }
        [("image_id", Value.str "ami-x"), ("instance_type", Value.str "t2.micro"),
         ("key_name", Value.str "k"), ("count", Value.int 3)]
    obtain ⟨r, hr⟩ := hex (by decide)
    have hs : r.Success = true := by
      have h : ((EC2Service.CreateResource (configFailing "unreachable")
          { Region := "us-east-1", client := ec2Accepting [] }
          [("image_id", Value.str "ami-x"), ("instance_type", Value.str "t2.micro"),
           ("key_name", Value.str "k"), ("count", Value.int 3)]).result.map
            fun x => x.Success) = some true := by decide
      rw [hr] at h
      simpa using h
    exact ⟨r, hr, hs, (hinv r hr).2 hs⟩

/-! ## Console: steps of `Update` -/

theorem handleEnter_inactive (m : Model) (h : m.inputActive = false) :
    (m.handleEnter).1.inputActive = false ∧ (m.handleEnter).1.formText = m.formText := by
  unfold Model.handleEnter
  simp only [h, Bool.false_eq_true, if_false]
  cases hs : m.screen <;> simp only [] <;> split_ifs <;> simp_all [Model.formText]

theorem navigateBack_inactive (m : Model) (h : m.inputActive = false) :
    m.navigateBack.inputActive = false ∧ m.navigateBack.formText = m.formText := by
  unfold Model.navigateBack
  cases hs : m.screen <;> simp_all [Model.formText]

theorem update_inactive (m : Model) (msg : Msg) (h : m.inputActive = false) :
    (m.Update msg).1.inputActive = false ∧ (m.Update msg).1.formText = m.formText := by
  cases msg with
  | windowSize w ht => exact ⟨h, rfl⟩
  | resultMsg r => exact ⟨h, rfl⟩
  | other => exact ⟨h, rfl⟩
  | key s =>
    unfold Model.Update
    simp only [h, Bool.false_eq_true, if_false, Bool.not_false, if_true]
    split_ifs
    all_goals first
      | exact navigateBack_inactive m h
      | exact handleEnter_inactive m h
      | exact ⟨h, rfl⟩
      | exact ⟨rfl, rfl⟩

theorem feed_cons (m : Model) (msg : Msg) (msgs : List Msg) :
    m.feed (msg :: msgs) = ((m.Update msg).1).feed msgs := rfl

theorem feed_inactive (msgs : List Msg) (m : Model) (h : m.inputActive = false) :
    (m.feed msgs).inputActive = false ∧ (m.feed msgs).formText = m.formText := by
  induction msgs generalizing m with
  | nil => exact ⟨h, rfl⟩
  | cons msg rest ih =>
    obtain ⟨h1, h2⟩ := update_inactive m msg h
    obtain ⟨h3, h4⟩ := ih (m.Update msg).1 h1
    rw [feed_cons]
    exact ⟨h3, h4.trans h2⟩

theorem handleInput_no_cmd (m : Model) (s : String) : (m.handleInput s).2 = none := by
  unfold Model.handleInput
  split_ifs <;> rfl

theorem handleEnter_createS3 (m m' : Model)
    (h : (m.handleEnter).2 = some (Cmd.createS3Bucket m')) : m' = m := by
  unfold Model.handleEnter at h
  by_cases ha : m.inputActive = true
  · simp only [ha, if_true] at h
    cases h
  · simp only [ha, Bool.false_eq_true, if_false] at h
    cases hs : m.screen <;> simp only [hs] at h <;> (try split_ifs at h) <;>
      first
        | (simp only [Option.some.injEq, Cmd.createS3Bucket.injEq] at h; exact h.symm)
        | cases h

theorem update_createS3 (m m' : Model) (msg : Msg)
    (h : (m.Update msg).2 = some (Cmd.createS3Bucket m')) : m' = m := by
  cases msg with
  | windowSize w ht => cases h
  | resultMsg r => cases h
  | other => cases h
  | key s =>
    unfold Model.Update at h
    simp only [] at h
    split_ifs at h
    all_goals first
      | exact handleEnter_createS3 m m' h
      | (rw [handleInput_no_cmd] at h; cases h)
      | cases h

/-! ## C17: the edit sub-mode is never entered -/

/-- C17. In every state the console reaches from the initial model, by any finite sequence of
messages, the field-edit sub-mode is inactive and the six form buffers hold their initial
values; so every bucket-creation command issued from such a state yields the result
`ValidationError` / `Bucket name is required`, constructs no service and calls no provider. -/
theorem console_edit_mode_unreachable (msgs : List Msg) :
    (initialModel.feed msgs).inputActive = false ∧
    (initialModel.feed msgs).bucketName = "" ∧
    (initialModel.feed msgs).imageID = "" ∧
    (initialModel.feed msgs).instanceType = "" ∧
    (initialModel.feed msgs).keyName = "" ∧
    (initialModel.feed msgs).region = "us-east-1" ∧
    (initialModel.feed msgs).count = "1" ∧
    ∀ (msg : Msg) (m' : Model) (load : String → Except String S3Client),
      ((initialModel.feed msgs).Update msg).2 = some (Cmd.createS3Bucket m') →
      m'.createS3Bucket load =
        { result := some { Success := false, Error := "ValidationError",
                           Message := "Bucket name is required" },
          constructed := [], bucketCalls := [], instanceCalls := [] } := by
  obtain ⟨hact, htext⟩ := feed_inactive msgs initialModel rfl
  have htext2 : (initialModel.feed msgs).formText = ["", "us-east-1", "", "", "", "1"] :=
    htext
  simp only [Model.formText, List.cons.injEq, and_true] at htext2
  obtain ⟨hb, hr, hi, ht, hk, hc⟩ := htext2
  refine ⟨hact, hb, hi, ht, hk, hr, hc, ?_⟩
  intro msg m' load hcmd
  have hm := update_createS3 _ _ _ hcmd
  subst hm
  unfold Model.createS3Bucket
  simp only [hb, if_true]

theorem console_edit_mode_unreachable_witness :
    ((initialModel.feed [Msg.key "enter", Msg.key "enter"]).Update (Msg.key "enter")).2
      = some (Cmd.createS3Bucket (initialModel.feed [Msg.key "enter", Msg.key "enter"])) ∧
    (initialModel.feed [Msg.key "enter", Msg.key "enter"]).createS3Bucket
        (s3ConfigYielding (s3Accepting none)) =
      { result := some { Success := false, Error := "ValidationError",
                         Message := "Bucket name is required" },
        constructed := [], bucketCalls := [], instanceCalls := [] } := by
  have hcmd : ((initialModel.feed [Msg.key "enter", Msg.key "enter"]).Update
      (Msg.key "enter")).2
      = some (Cmd.createS3Bucket (initialModel.feed [Msg.key "enter", Msg.key "enter"])) := by
    decide
  exact ⟨hcmd, (console_edit_mode_unreachable [Msg.key "enter", Msg.key "enter"]).2.2.2.2.2.2.2
    (Msg.key "enter") _ (s3ConfigYielding (s3Accepting none)) hcmd⟩

/-! ## Console: the key cases of `Update` -/

theorem update_quit (m : Model) (s : String) (hs : s = "ctrl+c" ∨ s = "q") :
    m.Update (Msg.key s) = (m, some Cmd.quit) := by
  unfold Model.Update
  simp only [hs, if_true]

theorem update_esc (m : Model) :
    m.Update (Msg.key "esc") =
      if m.inputActive then ({ m with inputActive := false }, none)
      else (m.navigateBack, none) := by
  rfl

theorem update_enter (m : Model) : m.Update (Msg.key "enter") = m.handleEnter := by
  rfl

theorem update_up (m : Model) (s : String) (hs : s = "up" ∨ s = "k") :
    m.Update (Msg.key s) =
      if m.inputActive then (m, none)
      else if wrapInt (m.cursor - 1) < 0 then
        ({ m with cursor := (m.getChoices.length : Int) - 1 }, none)
      else ({ m with cursor := wrapInt (m.cursor - 1) }, none) := by
  rcases hs with rfl | rfl <;> cases h : m.inputActive <;>
    simp [Model.Update, h, Model.getChoices]

theorem update_down (m : Model) (s : String) (hs : s = "down" ∨ s = "j") :
    m.Update (Msg.key s) =
      if m.inputActive then (m, none)
      else if wrapInt (m.cursor + 1) ≥ (m.getChoices.length : Int) then
        ({ m with cursor := 0 }, none)
      else ({ m with cursor := wrapInt (m.cursor + 1) }, none) := by
  rcases hs with rfl | rfl <;> cases h : m.inputActive <;>
    simp [Model.Update, h, Model.getChoices]

theorem update_tab (m : Model) :
    m.Update (Msg.key "tab") =
      if m.screen = Screen.S3CreateBucket then
        ({ m with inputField := Int.tmod (wrapInt (m.inputField + 1)) 2 }, none)
      else if m.screen = Screen.EC2CreateInstances then
        ({ m with inputField := Int.tmod (wrapInt (m.inputField + 1)) 5 }, none)
      else (m, none) := by
  rfl

theorem update_char (m : Model) (s : String)
    (h1 : ¬ (s = "ctrl+c" ∨ s = "q")) (h2 : s ≠ "esc") (h3 : s ≠ "enter")
    (h4 : ¬ (s = "up" ∨ s = "k")) (h5 : ¬ (s = "down" ∨ s = "j")) (h6 : s ≠ "tab") :
    m.Update (Msg.key s) = if m.inputActive then m.handleInput s else (m, none) := by
  unfold Model.Update
  simp only [h1, h2, h3, h4, h5, h6, if_false]

/-! ## C18: cursor and focus stay in range -/

theorem wrapInt_of_small (n : Int) (hlo : -8 ≤ n) (hhi : n ≤ 8) : wrapInt n = n := by
  unfold wrapInt
  omega

theorem getChoices_length_le (m : Model) : (m.getChoices.length : Int) ≤ 3 := by
  unfold Model.getChoices
  cases m.screen <;> simp

theorem navigateBack_wellPlaced (m : Model) (h : m.WellPlaced) : m.navigateBack.WellPlaced := by
  unfold Model.navigateBack
  cases hs : m.screen <;>
    simp_all [Model.WellPlaced, Model.getChoices]

theorem handleEnter_wellPlaced (m : Model) (ha : m.inputActive = false) (h : m.WellPlaced) :
    (m.handleEnter).1.WellPlaced := by
  unfold Model.handleEnter
  simp only [ha, Bool.false_eq_true, if_false]
  cases hs : m.screen <;> simp only [] <;> split_ifs <;>
    simp_all [Model.WellPlaced, Model.getChoices]

theorem up_wellPlaced (m : Model) (h : m.WellPlaced) :
    (if wrapInt (m.cursor - 1) < 0 then
      ({ m with cursor := (m.getChoices.length : Int) - 1 } : Model)
     else { m with cursor := wrapInt (m.cursor - 1) }).WellPlaced := by
  obtain ⟨hc, h2, h5⟩ := h
  have hlen := getChoices_length_le m
  refine ⟨?_, ?_, ?_⟩
  · intro hne
    have hscreen : m.screen ≠ Screen.ResultScreen := by
      split_ifs at hne <;> exact hne
    obtain ⟨h0, h1⟩ := hc hscreen
    have hw : wrapInt (m.cursor - 1) = m.cursor - 1 := wrapInt_of_small _ (by omega) (by omega)
    rw [hw]
    split_ifs with hneg
    · show 0 ≤ (m.getChoices.length : Int) - 1 ∧
        (m.getChoices.length : Int) - 1 < (m.getChoices.length : Int)
      omega
    · show 0 ≤ m.cursor - 1 ∧ m.cursor - 1 < (m.getChoices.length : Int)
      omega
  · intro hs
    have hs2 : m.screen = Screen.S3CreateBucket := by
      split_ifs at hs <;> exact hs
    have := h2 hs2
    split_ifs <;> exact this
  · intro hs
    have hs2 : m.screen = Screen.EC2CreateInstances := by
      split_ifs at hs <;> exact hs
    have := h5 hs2
    split_ifs <;> exact this

theorem down_wellPlaced (m : Model) (h : m.WellPlaced) :
    (if wrapInt (m.cursor + 1) ≥ (m.getChoices.length : Int) then
      ({ m with cursor := 0 } : Model)
     else { m with cursor := wrapInt (m.cursor + 1) }).WellPlaced := by
  obtain ⟨hc, h2, h5⟩ := h
  have hlen := getChoices_length_le m
  refine ⟨?_, ?_, ?_⟩
  · intro hne
    have hscreen : m.screen ≠ Screen.ResultScreen := by
      split_ifs at hne <;> exact hne
    obtain ⟨h0, h1⟩ := hc hscreen
    have hw : wrapInt (m.cursor + 1) = m.cursor + 1 := wrapInt_of_small _ (by omega) (by omega)
    rw [hw]
    split_ifs with hge
    · show 0 ≤ (0 : Int) ∧ (0 : Int) < (m.getChoices.length : Int)
      omega
    · show 0 ≤ m.cursor + 1 ∧ m.cursor + 1 < (m.getChoices.length : Int)
      omega
  · intro hs
    have hs2 : m.screen = Screen.S3CreateBucket := by
      split_ifs at hs <;> exact hs
    have := h2 hs2
    split_ifs <;> exact this
  · intro hs
    have hs2 : m.screen = Screen.EC2CreateInstances := by
      split_ifs at hs <;> exact hs
    have := h5 hs2
    split_ifs <;> exact this

theorem tab_focus_bound (f n : Int) (h0 : 0 ≤ f) (h1 : f < n) (hn : n ≤ 5) :
    0 ≤ Int.tmod (wrapInt (f + 1)) n ∧ Int.tmod (wrapInt (f + 1)) n < n ∧
      Int.tmod (wrapInt (f + 1)) n = (f + 1) % n := by
  have hw : wrapInt (f + 1) = f + 1 := wrapInt_of_small _ (by omega) (by omega)
  rw [hw, Int.tmod_eq_emod (by omega) (by omega)]
  refine ⟨Int.emod_nonneg _ (by omega), Int.emod_lt_of_pos _ (by omega), rfl⟩

theorem update_wellPlaced (m : Model) (msg : Msg) (ha : m.inputActive = false)
    (h : m.WellPlaced) : (m.Update msg).1.WellPlaced := by
  cases msg with
  | windowSize w ht => exact h
  | other => exact h
  | resultMsg r =>
    unfold Model.Update Model.handleResult
    simp [Model.WellPlaced]
  | key s =>
    have hna : ¬ m.inputActive = true := by simp [ha]
    by_cases hq : s = "ctrl+c" ∨ s = "q"
    · rw [update_quit m s hq]
      exact h
    by_cases hesc : s = "esc"
    · subst hesc
      rw [update_esc, if_neg hna]
      exact navigateBack_wellPlaced m h
    by_cases hent : s = "enter"
    · subst hent
      rw [update_enter]
      exact handleEnter_wellPlaced m ha h
    by_cases hup : s = "up" ∨ s = "k"
    · rw [update_up m s hup, if_neg hna]
      have := up_wellPlaced m h
      split_ifs at this ⊢ <;> exact this
    by_cases hdown : s = "down" ∨ s = "j"
    · rw [update_down m s hdown, if_neg hna]
      have := down_wellPlaced m h
      split_ifs at this ⊢ <;> exact this
    by_cases htab : s = "tab"
    · subst htab
      rw [update_tab]
      obtain ⟨hc, h2, h5⟩ := h
      by_cases hs3 : m.screen = Screen.S3CreateBucket
      · rw [if_pos hs3]
        obtain ⟨b0, b1⟩ := h2 hs3
        obtain ⟨t0, t1, -⟩ := tab_focus_bound m.inputField 2 b0 b1 (by omega)
        refine ⟨fun hne => hc hne, fun _ => ⟨t0, t1⟩, fun hs => ?_⟩
        exact absurd (hs3.symm.trans hs) (by decide)
      · rw [if_neg hs3]
        by_cases hs5 : m.screen = Screen.EC2CreateInstances
        · rw [if_pos hs5]
          obtain ⟨b0, b1⟩ := h5 hs5
          obtain ⟨t0, t1, -⟩ := tab_focus_bound m.inputField 5 b0 b1 (by omega)
          refine ⟨fun hne => hc hne, fun hs => ?_, fun _ => ⟨t0, t1⟩⟩
          exact absurd (hs5.symm.trans hs) (by decide)
        · rw [if_neg hs5]
          exact ⟨hc, h2, h5⟩
    rw [update_char m s hq hesc hent hup hdown htab, if_neg hna]
    exact h

theorem feed_wellPlaced (msgs : List Msg) (m : Model) (ha : m.inputActive = false)
    (h : m.WellPlaced) : (m.feed msgs).WellPlaced := by
  induction msgs generalizing m with
  | nil => exact h
  | cons msg rest ih =>
    rw [feed_cons]
    exact ih _ (update_inactive m msg ha).1 (update_wellPlaced m msg ha h)

/-- C18. In every state the console reaches from the initial model, by any finite sequence of
messages: unless the screen is the result screen, the cursor is a valid index into the choice
list of the screen; on the bucket-creation form the focus index is from 0 to 1, on the
instance-creation form from 0 to 4. -/
theorem console_cursor_and_focus_in_range (msgs : List Msg) :
    ((initialModel.feed msgs).screen ≠ Screen.ResultScreen →
      0 ≤ (initialModel.feed msgs).cursor ∧
      (initialModel.feed msgs).cursor < ((initialModel.feed msgs).getChoices.length : Int)) ∧
    ((initialModel.feed msgs).screen = Screen.S3CreateBucket →
      0 ≤ (initialModel.feed msgs).inputField ∧ (initialModel.feed msgs).inputField < 2) ∧
    ((initialModel.feed msgs).screen = Screen.EC2CreateInstances →
      0 ≤ (initialModel.feed msgs).inputField ∧ (initialModel.feed msgs).inputField < 5) :=
  feed_wellPlaced msgs initialModel rfl (by
    refine ⟨fun _ => ?_, fun hs => ?_, fun hs => ?_⟩
    · decide
    · exact absurd hs (by decide)
    · exact absurd hs (by decide))

theorem console_cursor_and_focus_in_range_witness :
    (initialModel.feed [Msg.key "enter", Msg.key "enter", Msg.key "tab", Msg.key "up"]).screen
      = Screen.S3CreateBucket ∧
    (initialModel.feed [Msg.key "enter", Msg.key "enter", Msg.key "tab", Msg.key "up"]).cursor
      = 1 ∧
    0 ≤ (initialModel.feed
      [Msg.key "enter", Msg.key "enter", Msg.key "tab", Msg.key "up"]).inputField ∧
    (initialModel.feed
      [Msg.key "enter", Msg.key "enter", Msg.key "tab", Msg.key "up"]).inputField < 2 := by
  have hs : (initialModel.feed
      [Msg.key "enter", Msg.key "enter", Msg.key "tab", Msg.key "up"]).screen
      = Screen.S3CreateBucket := by decide
  have h := (console_cursor_and_focus_in_range
    [Msg.key "enter", Msg.key "enter", Msg.key "tab", Msg.key "up"]).2.1 hs
  exact ⟨hs, by decide, h.1, h.2⟩

/-! ## C13: navigation keys -/

/-- C13. With the edit sub-mode inactive, on a screen whose choice list has `n ≥ 1` entries
and with the cursor `c` in `0 ≤ c < n`, the down keys (`down`, `j`) set the cursor to
`(c + 1) mod n` and the up keys (`up`, `k`) set it to `(c + n - 1) mod n`; nothing else in the
state changes and no command is issued. -/
theorem console_navigation_wraps (m : Model) (n c : Int) (ha : m.inputActive = false)
    (hn : (m.getChoices.length : Int) = n) (h1 : 1 ≤ n) (hc : m.cursor = c)
    (h0 : 0 ≤ c) (hlt : c < n) :
    (∀ s, s = "down" ∨ s = "j" →
      m.Update (Msg.key s) = ({ m with cursor := (c + 1) % n }, none)) ∧
    (∀ s, s = "up" ∨ s = "k" →
      m.Update (Msg.key s) = ({ m with cursor := (c + n - 1) % n }, none)) := by
  have hna : ¬ m.inputActive = true := by simp [ha]
  have hlen := getChoices_length_le m
  constructor
  · intro s hs
    have hw : wrapInt (m.cursor + 1) = c + 1 := by
      rw [hc]
      exact wrapInt_of_small _ (by omega) (by omega)
    rw [update_down m s hs, if_neg hna, hw, hn]
    by_cases hge : c + 1 ≥ n
    · have hcn : c + 1 = n := by omega
      rw [if_pos hge, hcn, Int.emod_self]
    · rw [if_neg hge, Int.emod_eq_of_lt (by omega) (by omega)]
  · intro s hs
    have hw : wrapInt (m.cursor - 1) = c - 1 := by
      rw [hc]
      exact wrapInt_of_small _ (by omega) (by omega)
    rw [update_up m s hs, if_neg hna, hw, hn]
    by_cases hneg : c - 1 < 0
    · have hc0 : c = 0 := by omega
      rw [if_pos hneg, hc0, Int.emod_eq_of_lt (by omega) (by omega)]
      simp
    · rw [if_neg hneg]
      have hmod : (c + n - 1) % n = c - 1 := by
        have : c + n - 1 = (c - 1) + n := by omega
        rw [this, Int.add_emod_self, Int.emod_eq_of_lt (by omega) (by omega)]
      rw [hmod]

theorem console_navigation_wraps_witness :
    initialModel.Update (Msg.key "down") = ({ initialModel with cursor := 1 }, none) ∧
    initialModel.Update (Msg.key "k") = ({ initialModel with cursor := 2 }, none) := by
  have h := console_navigation_wraps initialModel 3 0 rfl (by decide) (by decide) rfl
    (by decide) (by decide)
  exact ⟨h.1 "down" (Or.inl rfl), h.2 "k" (Or.inr rfl)⟩

/-! ## C14: the back key -/

/-- C14 (as stated, refuted). The bucket menu reached by leaving the bucket form through its
`Back` entry, after one `tab`, has the focus index 1; `esc` moves it to the main menu and
resets the cursor, but the focus index stays 1. -/
theorem console_back_from_menu_keeps_focus :
    (initialModel.feed [Msg.key "enter", Msg.key "enter", Msg.key "tab", Msg.key "down",
      Msg.key "enter"]).screen = Screen.S3Menu ∧
    (initialModel.feed [Msg.key "enter", Msg.key "enter", Msg.key "tab", Msg.key "down",
      Msg.key "enter"]).inputActive = false ∧
    ((initialModel.feed [Msg.key "enter", Msg.key "enter", Msg.key "tab", Msg.key "down",
      Msg.key "enter"]).Update (Msg.key "esc")).1.screen = Screen.MainMenu ∧
    ((initialModel.feed [Msg.key "enter", Msg.key "enter", Msg.key "tab", Msg.key "down",
      Msg.key "enter"]).Update (Msg.key "esc")).1.cursor = 0 ∧
    ((initialModel.feed [Msg.key "enter", Msg.key "enter", Msg.key "tab", Msg.key "down",
      Msg.key "enter"]).Update (Msg.key "esc")).1.inputField = 1 := by
  decide

/-- C14 (amended). With the edit sub-mode inactive, `esc` moves the bucket menu and the
instance menu to the main menu, the bucket-creation form to the bucket menu, the
instance-creation form to the instance menu and the result screen to the main menu; each of
these transitions resets the cursor to 0, the two transitions out of a form also reset the
focus index to 0, and nothing else in the state changes (the transitions from the menus and
from the result screen leave the focus index as it was); no command is issued. -/
theorem console_back_key (m : Model) (ha : m.inputActive = false) :
    (m.screen = Screen.S3Menu ∨ m.screen = Screen.EC2Menu →
      m.Update (Msg.key "esc") = ({ m with screen := Screen.MainMenu, cursor := 0 }, none)) ∧
    (m.screen = Screen.S3CreateBucket →
      m.Update (Msg.key "esc")
        = ({ m with screen := Screen.S3Menu, cursor := 0, inputField := 0 }, none)) ∧
    (m.screen = Screen.EC2CreateInstances →
      m.Update (Msg.key "esc")
        = ({ m with screen := Screen.EC2Menu, cursor := 0, inputField := 0 }, none)) ∧
    (m.screen = Screen.ResultScreen →
      m.Update (Msg.key "esc") = ({ m with screen := Screen.MainMenu, cursor := 0 }, none)) := by
  have hna : ¬ m.inputActive = true := by simp [ha]
  rw [update_esc, if_neg hna]
  unfold Model.navigateBack
  refine ⟨?_, ?_, ?_, ?_⟩
  · rintro (hs | hs) <;> rw [hs]
  · intro hs
    rw [hs]
  · intro hs
    rw [hs]
  · intro hs
    rw [hs]

theorem console_back_key_witness :
    (initialModel.feed [Msg.key "enter", Msg.key "enter", Msg.key "tab"]).Update (Msg.key "esc")
      = ({ initialModel with screen := Screen.S3Menu }, none) := by
  have h := (console_back_key
    (initialModel.feed [Msg.key "enter", Msg.key "enter", Msg.key "tab"]) (by decide)).2.1
    (by decide)
  rw [h]
  decide

/-! ## C11, C12: the edit sub-mode -/

/-- C11 (code evaluated at the failing inputs). On the bucket-creation form with the edit
sub-mode inactive and the cursor on the first entry, `enter` leaves the sub-mode inactive and
issues the bucket-creation command; on the instance-creation form it issues the
instance-creation command; with the cursor on the second entry it leaves the form. From no
state with the sub-mode inactive does `enter` make it active. -/
theorem console_enter_on_form_starts_create :
    (initialModel.feed [Msg.key "enter", Msg.key "enter"]).screen = Screen.S3CreateBucket ∧
    (initialModel.feed [Msg.key "enter", Msg.key "enter"]).inputActive = false ∧
    (initialModel.feed [Msg.key "enter", Msg.key "enter"]).Update (Msg.key "enter")
      = (initialModel.feed [Msg.key "enter", Msg.key "enter"],
         some (Cmd.createS3Bucket (initialModel.feed [Msg.key "enter", Msg.key "enter"]))) ∧
    (initialModel.feed [Msg.key "down", Msg.key "enter", Msg.key "enter"]).Update
        (Msg.key "enter")
      = (initialModel.feed [Msg.key "down", Msg.key "enter", Msg.key "enter"],
         some (Cmd.createEC2Instances
           (initialModel.feed [Msg.key "down", Msg.key "enter", Msg.key "enter"]))) ∧
    ((initialModel.feed [Msg.key "enter", Msg.key "enter", Msg.key "down"]).Update
        (Msg.key "enter")).1.screen = Screen.S3Menu ∧
    ∀ m : Model, m.inputActive = false →
      (m.Update (Msg.key "enter")).1.inputActive = false := by
  refine ⟨by decide, by decide, by decide, by decide, by decide, ?_⟩
  intro m ha
  exact (update_inactive m (Msg.key "enter") ha).1

theorem exit_code_zero_iff (r : ResourceResult) :
    (if !r.Success then (1 : Int) else 0) = 0 ↔ r.Success = true := by
  cases r.Success <;> simp

theorem s3CreateBucketRun_effective (load : String → Except String S3Client)
    (region s3Region s3BucketName : String) :
    s3CreateBucketRun load region s3Region s3BucketName =
      s3CreateBucketRun load (if s3Region ≠ "" then s3Region else region) "" s3BucketName := by
  by_cases h : s3Region = "" <;> simp [s3CreateBucketRun, h]

theorem s3CreateBucketRun_no_region (load : String → Except String S3Client)
    (s3BucketName : String) :
    s3CreateBucketRun load "" "" s3BucketName = exitEarly "Error: region is required\n" := by
  unfold s3CreateBucketRun
  simp only [if_true]

theorem s3CreateBucketRun_no_name (load : String → Except String S3Client)
    (r : String) (hr : r ≠ "") :
    s3CreateBucketRun load r "" "" = exitEarly "Error: bucket-name is required\n" := by
  unfold s3CreateBucketRun
  simp only [if_true, hr, if_false]

theorem s3CreateBucketRun_no_service (load : String → Except String S3Client)
    (r name err : String) (hr : r ≠ "") (hn : name ≠ "") (hload : load r = .error err) :
    s3CreateBucketRun load r "" name =
      { exitCode := 1,
        stderr := ["Error creating S3 service: " ++ ("failed to load AWS config: " ++ err) ++
          "\n"],
        constructed := [r], params := none, printed := none,
        bucketCalls := [], instanceCalls := [] } := by
  unfold s3CreateBucketRun NewS3Service
  simp only [if_true, hr, hn, if_false, hload]

theorem s3CreateBucketRun_called (load : String → Except String S3Client)
    (r name : String) (client : S3Client) (hr : r ≠ "") (hn : name ≠ "")
    (hload : load r = .ok client) :
    ∃ res, (S3Service.CreateResource { Region := r, client := client }
        [("bucket_name", Value.str name), ("region", Value.str r)]).result = some res ∧
      s3CreateBucketRun load r "" name =
        { exitCode := if !res.Success then 1 else 0, stderr := [],
          constructed := [r],
          params := some [("bucket_name", Value.str name), ("region", Value.str r)],
          printed := some res,
          bucketCalls := (S3Service.CreateResource { Region := r, client := client }
            [("bucket_name", Value.str name), ("region", Value.str r)]).calls,
          instanceCalls := [] } := by
  obtain ⟨res, hres, herr⟩ := s3_result_total { Region := r, client := client }
    [("bucket_name", Value.str name), ("region", Value.str r)]
  refine ⟨res, hres, ?_⟩
  have hsvc : ({ toBaseService := NewBaseService r, client := client } : S3Service)
      = { Region := r, client := client } := rfl
  unfold s3CreateBucketRun NewS3Service
  simp only [if_true, hr, hn, if_false, hload, hsvc, herr, hres]

theorem s3CreateBucketRun_core (load : String → Except String S3Client)
    (r s3BucketName : String) :
    (r = "" →
      (s3CreateBucketRun load r "" s3BucketName).exitCode = 1 ∧
      (s3CreateBucketRun load r "" s3BucketName).constructed = [] ∧
      (s3CreateBucketRun load r "" s3BucketName).params = none ∧
      (s3CreateBucketRun load r "" s3BucketName).printed = none ∧
      (s3CreateBucketRun load r "" s3BucketName).bucketCalls = []) ∧
    (r ≠ "" → s3BucketName ≠ "" →
      (s3CreateBucketRun load r "" s3BucketName).constructed = [r]) ∧
    (∀ client, r ≠ "" → s3BucketName ≠ "" → load r = .ok client →
      (s3CreateBucketRun load r "" s3BucketName).params
        = some [("bucket_name", Value.str s3BucketName), ("region", Value.str r)] ∧
      (s3CreateBucketRun load r "" s3BucketName).bucketCalls
        = (S3Service.CreateResource { Region := r, client := client }
            [("bucket_name", Value.str s3BucketName), ("region", Value.str r)]).calls ∧
      (s3CreateBucketRun load r "" s3BucketName).printed
        = (S3Service.CreateResource { Region := r, client := client }
            [("bucket_name", Value.str s3BucketName), ("region", Value.str r)]).result ∧
      ((s3CreateBucketRun load r "" s3BucketName).exitCode = 0 ↔
        ∃ res, (S3Service.CreateResource { Region := r, client := client }
            [("bucket_name", Value.str s3BucketName), ("region", Value.str r)]).result
            = some res ∧ res.Success = true)) ∧
    ((s3CreateBucketRun load r "" s3BucketName).params = none →
      (s3CreateBucketRun load r "" s3BucketName).exitCode = 1 ∧
      (s3CreateBucketRun load r "" s3BucketName).bucketCalls = []) := by
  have hcalled : ∀ client, r ≠ "" → s3BucketName ≠ "" → load r = .ok client →
      (s3CreateBucketRun load r "" s3BucketName).constructed = [r] ∧
      (s3CreateBucketRun load r "" s3BucketName).params
        = some [("bucket_name", Value.str s3BucketName), ("region", Value.str r)] ∧
      (s3CreateBucketRun load r "" s3BucketName).bucketCalls
        = (S3Service.CreateResource { Region := r, client := client }
            [("bucket_name", Value.str s3BucketName), ("region", Value.str r)]).calls ∧
      (s3CreateBucketRun load r "" s3BucketName).printed
        = (S3Service.CreateResource { Region := r, client := client }
            [("bucket_name", Value.str s3BucketName), ("region", Value.str r)]).result ∧
      ((s3CreateBucketRun load r "" s3BucketName).exitCode = 0 ↔
        ∃ res, (S3Service.CreateResource { Region := r, client := client }
            [("bucket_name", Value.str s3BucketName), ("region", Value.str r)]).result
            = some res ∧ res.Success = true) := by
    intro client hr hn hload
    obtain ⟨res, hres, hrun⟩ := s3CreateBucketRun_called load r s3BucketName client hr hn hload
    rw [hrun, hres]
    refine ⟨rfl, rfl, rfl, rfl, ?_⟩
    show (if !res.Success then (1 : Int) else 0) = 0 ↔ _
    rw [exit_code_zero_iff]
    constructor
    · intro h
      exact ⟨res, rfl, h⟩
    · rintro ⟨res2, h2, hs⟩
      cases h2
      exact hs
  refine ⟨?_, ?_, ?_, ?_⟩
  · intro hr
    subst hr
    rw [s3CreateBucketRun_no_region]
    exact ⟨rfl, rfl, rfl, rfl, rfl⟩
  · intro hr hn
    cases hload : load r with
    | error err =>
      rw [s3CreateBucketRun_no_service load r s3BucketName err hr hn hload]
    | ok client => exact (hcalled client hr hn hload).1
  · intro client hr hn hload
    exact (hcalled client hr hn hload).2
  · intro hnone
    by_cases hr : r = ""
    · subst hr
      rw [s3CreateBucketRun_no_region]
      exact ⟨rfl, rfl⟩
    by_cases hn : s3BucketName = ""
    · subst hn
      rw [s3CreateBucketRun_no_name load r hr]
      exact ⟨rfl, rfl⟩
    cases hload : load r with
    | error err =>
      rw [s3CreateBucketRun_no_service load r s3BucketName err hr hn hload]
      exact ⟨rfl, rfl⟩
    | ok client =>
      rw [(hcalled client hr hn hload).2.1] at hnone
      cases hnone

theorem ec2CreateInstancesRun_effective (load : String → Except String EC2Client)
    (region ec2Region i t k : String) (count : Int) :
    ec2CreateInstancesRun load region ec2Region i t k count =
      ec2CreateInstancesRun load (if ec2Region ≠ "" then ec2Region else region) "" i t k
        count := by
  by_cases h : ec2Region = "" <;> simp [ec2CreateInstancesRun, h]

theorem ec2CreateInstancesRun_no_region (load : String → Except String EC2Client)
    (i t k : String) (count : Int) :
    ec2CreateInstancesRun load "" "" i t k count
      = exitEarly "Error: region is required\n" := by
  unfold ec2CreateInstancesRun
  simp only [if_true]

theorem ec2CreateInstancesRun_missing_flag (load : String → Except String EC2Client)
    (r i t k : String) (count : Int) (hr : r ≠ "") (h : i = "" ∨ t = "" ∨ k = "") :
    ∃ line, ec2CreateInstancesRun load r "" i t k count = exitEarly line := by
  unfold ec2CreateInstancesRun
  simp only [if_true, hr, if_false]
  by_cases hi : i = ""
  · exact ⟨"Error: image-id is required\n", by simp only [hi, if_true]⟩
  by_cases ht : t = ""
  · exact ⟨"Error: instance-type is required\n", by simp only [hi, ht, if_true, if_false]⟩
  by_cases hk : k = ""
  · exact ⟨"Error: key-name is required\n", by simp only [hi, ht, hk, if_true, if_false]⟩
  rcases h with h | h | h
  · exact absurd h hi
  · exact absurd h ht
  · exact absurd h hk

theorem ec2CreateInstancesRun_no_service (load : String → Except String EC2Client)
    (r i t k err : String) (count : Int) (hr : r ≠ "") (hi : i ≠ "") (ht : t ≠ "")
    (hk : k ≠ "") (hload : load r = .error err) :
    ec2CreateInstancesRun load r "" i t k count =
      { exitCode := 1,
        stderr := ["Error creating EC2 service: " ++ ("failed to load AWS config: " ++ err) ++
          "\n"],
        constructed := [r], params := none, printed := none,
        bucketCalls := [], instanceCalls := [] } := by
  unfold ec2CreateInstancesRun NewEC2Service
  simp only [if_true, hr, hi, ht, hk, if_false, hload]

theorem ec2CreateInstancesRun_called (load : String → Except String EC2Client)
    (r i t k : String) (count : Int) (client : EC2Client) (hr : r ≠ "") (hi : i ≠ "")
    (ht : t ≠ "") (hk : k ≠ "") (hload : load r = .ok client) :
    ((EC2Service.CreateResource load { Region := r, client := client }
        [("image_id", Value.str i), ("instance_type", Value.str t),
         ("key_name", Value.str k), ("count", Value.int count),
         ("region", Value.str r)]).result = none ∧
      ec2CreateInstancesRun load r "" i t k count =
        { exitCode := 2, stderr := [], constructed := [r],
          params := some [("image_id", Value.str i), ("instance_type", Value.str t),
                          ("key_name", Value.str k), ("count", Value.int count),
                          ("region", Value.str r)],
          printed := none, bucketCalls := [],
          instanceCalls := (EC2Service.CreateResource load { Region := r, client := client }
            [("image_id", Value.str i), ("instance_type", Value.str t),
             ("key_name", Value.str k), ("count", Value.int count),
             ("region", Value.str r)]).calls }) ∨
    (∃ res, (EC2Service.CreateResource load { Region := r, client := client }
        [("image_id", Value.str i), ("instance_type", Value.str t),
         ("key_name", Value.str k), ("count", Value.int count),
         ("region", Value.str r)]).result = some res ∧
      ec2CreateInstancesRun load r "" i t k count =
        { exitCode := if !res.Success then 1 else 0, stderr := [], constructed := [r],
          params := some [("image_id", Value.str i), ("instance_type", Value.str t),
                          ("key_name", Value.str k), ("count", Value.int count),
                          ("region", Value.str r)],
          printed := some res, bucketCalls := [],
          instanceCalls := (EC2Service.CreateResource load { Region := r, client := client }
            [("image_id", Value.str i), ("instance_type", Value.str t),
             ("key_name", Value.str k), ("count", Value.int count),
             ("region", Value.str r)]).calls }) := by
  have hsvc : ({ toBaseService := NewBaseService r, client := client } : EC2Service)
      = { Region := r, client := client } := rfl
  rcases ec2_result_total load { Region := r, client := client }
    [("image_id", Value.str i), ("instance_type", Value.str t),
     ("key_name", Value.str k), ("count", Value.int count), ("region", Value.str r)] with
    ⟨hp, hres, herr⟩ | ⟨res, hres, herr, hnp⟩
  · left
    refine ⟨hres, ?_⟩
    unfold ec2CreateInstancesRun NewEC2Service
    simp only [if_true, hr, hi, ht, hk, if_false, hload, hsvc, hp]
  · right
    refine ⟨res, hres, ?_⟩
    unfold ec2CreateInstancesRun NewEC2Service
    simp only [if_true, hr, hi, ht, hk, if_false, hload, hsvc, hnp, Bool.false_eq_true, herr,
      hres]

theorem ec2CreateInstancesRun_core (load : String → Except String EC2Client)
    (r i t k : String) (count : Int) :
    (r = "" →
      (ec2CreateInstancesRun load r "" i t k count).exitCode = 1 ∧
      (ec2CreateInstancesRun load r "" i t k count).constructed = [] ∧
      (ec2CreateInstancesRun load r "" i t k count).params = none ∧
      (ec2CreateInstancesRun load r "" i t k count).printed = none ∧
      (ec2CreateInstancesRun load r "" i t k count).instanceCalls = []) ∧
    (r ≠ "" → i ≠ "" → t ≠ "" → k ≠ "" →
      (ec2CreateInstancesRun load r "" i t k count).constructed = [r]) ∧
    (∀ client, r ≠ "" → i ≠ "" → t ≠ "" → k ≠ "" → load r = .ok client →
      (ec2CreateInstancesRun load r "" i t k count).params
        = some [("image_id", Value.str i), ("instance_type", Value.str t),
                ("key_name", Value.str k), ("count", Value.int count),
                ("region", Value.str r)] ∧
      (ec2CreateInstancesRun load r "" i t k count).instanceCalls
        = (EC2Service.CreateResource load { Region := r, client := client }
            [("image_id", Value.str i), ("instance_type", Value.str t),
             ("key_name", Value.str k), ("count", Value.int count),
             ("region", Value.str r)]).calls ∧
      (ec2CreateInstancesRun load r "" i t k count).printed
        = (EC2Service.CreateResource load { Region := r, client := client }
            [("image_id", Value.str i), ("instance_type", Value.str t),
             ("key_name", Value.str k), ("count", Value.int count),
             ("region", Value.str r)]).result ∧
      ((ec2CreateInstancesRun load r "" i t k count).exitCode = 0 ↔
        ∃ res, (EC2Service.CreateResource load { Region := r, client := client }
            [("image_id", Value.str i), ("instance_type", Value.str t),
             ("key_name", Value.str k), ("count", Value.int count),
             ("region", Value.str r)]).result = some res ∧ res.Success = true)) ∧
    ((ec2CreateInstancesRun load r "" i t k count).params = none →
      (ec2CreateInstancesRun load r "" i t k count).exitCode = 1 ∧
      (ec2CreateInstancesRun load r "" i t k count).instanceCalls = []) := by
  have hcalled : ∀ client, r ≠ "" → i ≠ "" → t ≠ "" → k ≠ "" → load r = .ok client →
      (ec2CreateInstancesRun load r "" i t k count).constructed = [r] ∧
      (ec2CreateInstancesRun load r "" i t k count).params
        = some [("image_id", Value.str i), ("instance_type", Value.str t),
                ("key_name", Value.str k), ("count", Value.int count),
                ("region", Value.str r)] ∧
      (ec2CreateInstancesRun load r "" i t k count).instanceCalls
        = (EC2Service.CreateResource load { Region := r, client := client }
            [("image_id", Value.str i), ("instance_type", Value.str t),
             ("key_name", Value.str k), ("count", Value.int count),
             ("region", Value.str r)]).calls ∧
      (ec2CreateInstancesRun load r "" i t k count).printed
        = (EC2Service.CreateResource load { Region := r, client := client }
            [("image_id", Value.str i), ("instance_type", Value.str t),
             ("key_name", Value.str k), ("count", Value.int count),
             ("region", Value.str r)]).result ∧
      ((ec2CreateInstancesRun load r "" i t k count).exitCode = 0 ↔
        ∃ res, (EC2Service.CreateResource load { Region := r, client := client }
            [("image_id", Value.str i), ("instance_type", Value.str t),
             ("key_name", Value.str k), ("count", Value.int count),
             ("region", Value.str r)]).result = some res ∧ res.Success = true) := by
    intro client hr hi ht hk hload
    rcases ec2CreateInstancesRun_called load r i t k count client hr hi ht hk hload with
      ⟨hres, hrun⟩ | ⟨res, hres, hrun⟩
    · rw [hrun, hres]
      refine ⟨rfl, rfl, rfl, rfl, ?_⟩
      constructor
      · intro h
        cases h
      · rintro ⟨res2, h2, -⟩
        cases h2
    · rw [hrun, hres]
      refine ⟨rfl, rfl, rfl, rfl, ?_⟩
      show (if !res.Success then (1 : Int) else 0) = 0 ↔ _
      rw [exit_code_zero_iff]
      constructor
      · intro h
        exact ⟨res, rfl, h⟩
      · rintro ⟨res2, h2, hs⟩
        cases h2
        exact hs
  refine ⟨?_, ?_, ?_, ?_⟩
  · intro hr
    subst hr
    rw [ec2CreateInstancesRun_no_region]
    exact ⟨rfl, rfl, rfl, rfl, rfl⟩
  · intro hr hi ht hk
    cases hload : load r with
    | error err =>
      rw [ec2CreateInstancesRun_no_service load r i t k err count hr hi ht hk hload]
    | ok client => exact (hcalled client hr hi ht hk hload).1
  · intro client hr hi ht hk hload
    exact (hcalled client hr hi ht hk hload).2
  · intro hnone
    by_cases hr : r = ""
    · subst hr
      rw [ec2CreateInstancesRun_no_region]
      exact ⟨rfl, rfl⟩
    by_cases hflag : i = "" ∨ t = "" ∨ k = ""
    · obtain ⟨line, hline⟩ := ec2CreateInstancesRun_missing_flag load r i t k count hr hflag
      rw [hline]
      exact ⟨rfl, rfl⟩
    have hi : i ≠ "" := fun h => hflag (Or.inl h)
    have ht : t ≠ "" := fun h => hflag (Or.inr (Or.inl h))
    have hk : k ≠ "" := fun h => hflag (Or.inr (Or.inr h))
    cases hload : load r with
    | error err =>
      rw [ec2CreateInstancesRun_no_service load r i t k err count hr hi ht hk hload]
      exact ⟨rfl, rfl⟩
    | ok client =>
      rw [(hcalled client hr hi ht hk hload).2.1] at hnone
      cases hnone

/-- C15. In both command handlers the effective region is the region flag of the action when
it is non-empty and the global region flag otherwise. When both are empty the handler exits
with status 1, constructs no service, calls no service and makes no provider call. With a
non-empty effective region and non-empty required flags the service is constructed for the
effective region; when that construction succeeds `CreateResource` is called on that service
with a parameter map carrying the effective region, its provider calls are the only ones, its
result is the one printed, and the exit status is 0 exactly when it returned a result with
`success=true`. Whenever no service call is made the exit status is 1. -/
theorem cli_region_and_exit_status :
    (∀ (load : String → Except String S3Client) (region s3Region s3BucketName : String),
      ((s3Region = "" ∧ region = "") →
        (s3CreateBucketRun load region s3Region s3BucketName).exitCode = 1 ∧
        (s3CreateBucketRun load region s3Region s3BucketName).constructed = [] ∧
        (s3CreateBucketRun load region s3Region s3BucketName).params = none ∧
        (s3CreateBucketRun load region s3Region s3BucketName).printed = none ∧
        (s3CreateBucketRun load region s3Region s3BucketName).bucketCalls = []) ∧
      ((if s3Region ≠ "" then s3Region else region) ≠ "" → s3BucketName ≠ "" →
        (s3CreateBucketRun load region s3Region s3BucketName).constructed
          = [if s3Region ≠ "" then s3Region else region]) ∧
      (∀ client, (if s3Region ≠ "" then s3Region else region) ≠ "" → s3BucketName ≠ "" →
        load (if s3Region ≠ "" then s3Region else region) = .ok client →
        (s3CreateBucketRun load region s3Region s3BucketName).params
          = some [("bucket_name", Value.str s3BucketName),
                  ("region", Value.str (if s3Region ≠ "" then s3Region else region))] ∧
        (s3CreateBucketRun load region s3Region s3BucketName).bucketCalls
          = (S3Service.CreateResource
              { Region := if s3Region ≠ "" then s3Region else region, client := client }
              [("bucket_name", Value.str s3BucketName),
               ("region", Value.str (if s3Region ≠ "" then s3Region else region))]).calls ∧
        (s3CreateBucketRun load region s3Region s3BucketName).printed
          = (S3Service.CreateResource
              { Region := if s3Region ≠ "" then s3Region else region, client := client }
              [("bucket_name", Value.str s3BucketName),
               ("region", Value.str (if s3Region ≠ "" then s3Region else region))]).result ∧
        ((s3CreateBucketRun load region s3Region s3BucketName).exitCode = 0 ↔
          ∃ res, (S3Service.CreateResource
              { Region := if s3Region ≠ "" then s3Region else region, client := client }
              [("bucket_name", Value.str s3BucketName),
               ("region", Value.str (if s3Region ≠ "" then s3Region else region))]).result
              = some res ∧ res.Success = true)) ∧
      ((s3CreateBucketRun load region s3Region s3BucketName).params = none →
        (s3CreateBucketRun load region s3Region s3BucketName).exitCode = 1 ∧
        (s3CreateBucketRun load region s3Region s3BucketName).bucketCalls = [])) ∧
    (∀ (load : String → Except String EC2Client)
        (region ec2Region ec2ImageID ec2InstanceType ec2KeyName : String) (ec2Count : Int),
      ((ec2Region = "" ∧ region = "") →
        (ec2CreateInstancesRun load region ec2Region ec2ImageID ec2InstanceType ec2KeyName
          ec2Count).exitCode = 1 ∧
        (ec2CreateInstancesRun load region ec2Region ec2ImageID ec2InstanceType ec2KeyName
          ec2Count).constructed = [] ∧
        (ec2CreateInstancesRun load region ec2Region ec2ImageID ec2InstanceType ec2KeyName
          ec2Count).params = none ∧
        (ec2CreateInstancesRun load region ec2Region ec2ImageID ec2InstanceType ec2KeyName
          ec2Count).printed = none ∧
        (ec2CreateInstancesRun load region ec2Region ec2ImageID ec2InstanceType ec2KeyName
          ec2Count).instanceCalls = []) ∧
      ((if ec2Region ≠ "" then ec2Region else region) ≠ "" → ec2ImageID ≠ "" →
        ec2InstanceType ≠ "" → ec2KeyName ≠ "" →
        (ec2CreateInstancesRun load region ec2Region ec2ImageID ec2InstanceType ec2KeyName
          ec2Count).constructed = [if ec2Region ≠ "" then ec2Region else region]) ∧
      (∀ client, (if ec2Region ≠ "" then ec2Region else region) ≠ "" → ec2ImageID ≠ "" →
        ec2InstanceType ≠ "" → ec2KeyName ≠ "" →
        load (if ec2Region ≠ "" then ec2Region else region) = .ok client →
        (ec2CreateInstancesRun load region ec2Region ec2ImageID ec2InstanceType ec2KeyName
          ec2Count).params
          = some [("image_id", Value.str ec2ImageID),
                  ("instance_type", Value.str ec2InstanceType),
                  ("key_name", Value.str ec2KeyName), ("count", Value.int ec2Count),
                  ("region", Value.str (if ec2Region ≠ "" then ec2Region else region))] ∧
        (ec2CreateInstancesRun load region ec2Region ec2ImageID ec2InstanceType ec2KeyName
          ec2Count).instanceCalls
          = (EC2Service.CreateResource load
              { Region := if ec2Region ≠ "" then ec2Region else region, client := client }
              [("image_id", Value.str ec2ImageID),
               ("instance_type", Value.str ec2InstanceType),
               ("key_name", Value.str ec2KeyName), ("count", Value.int ec2Count),
               ("region", Value.str (if ec2Region ≠ "" then ec2Region else region))]).calls ∧
        (ec2CreateInstancesRun load region ec2Region ec2ImageID ec2InstanceType ec2KeyName
          ec2Count).printed
          = (EC2Service.CreateResource load
              { Region := if ec2Region ≠ "" then ec2Region else region, client := client }
              [("image_id", Value.str ec2ImageID),
               ("instance_type", Value.str ec2InstanceType),
               ("key_name", Value.str ec2KeyName), ("count", Value.int ec2Count),
               ("region", Value.str (if ec2Region ≠ "" then ec2Region else region))]).result ∧
        ((ec2CreateInstancesRun load region ec2Region ec2ImageID ec2InstanceType ec2KeyName
          ec2Count).exitCode = 0 ↔
          ∃ res, (EC2Service.CreateResource load
              { Region := if ec2Region ≠ "" then ec2Region else region, client := client }
              [("image_id", Value.str ec2ImageID),
               ("instance_type", Value.str ec2InstanceType),
               ("key_name", Value.str ec2KeyName), ("count", Value.int ec2Count),
               ("region", Value.str (if ec2Region ≠ "" then ec2Region else region))]).result
              = some res ∧ res.Success = true)) ∧
      ((ec2CreateInstancesRun load region ec2Region ec2ImageID ec2InstanceType ec2KeyName
          ec2Count).params = none →
        (ec2CreateInstancesRun load region ec2Region ec2ImageID ec2InstanceType ec2KeyName
          ec2Count).exitCode = 1 ∧
        (ec2CreateInstancesRun load region ec2Region ec2ImageID ec2InstanceType ec2KeyName
          ec2Count).instanceCalls = [])) := by
  constructor
  · intro load region s3Region s3BucketName
    rw [s3CreateBucketRun_effective]
    obtain ⟨h1, h2, h3, h4⟩ := s3CreateBucketRun_core load
      (if s3Region ≠ "" then s3Region else region) s3BucketName
    refine ⟨fun h => h1 ?_, h2, h3, h4⟩
    simp [h.1, h.2]
  · intro load region ec2Region i t k count
    rw [ec2CreateInstancesRun_effective]
    obtain ⟨h1, h2, h3, h4⟩ := ec2CreateInstancesRun_core load
      (if ec2Region ≠ "" then ec2Region else region) i t k count
    refine ⟨fun h => h1 ?_, h2, h3, h4⟩
    simp [h.1, h.2]

theorem cli_region_and_exit_status_witness :
    (s3CreateBucketRun (s3ConfigYielding (s3Accepting none)) "" "" "logs-2024").exitCode = 1 ∧
    (s3CreateBucketRun (s3ConfigYielding (s3Accepting none)) "" "" "logs-2024").constructed
      = [] ∧
    (s3CreateBucketRun (s3ConfigYielding (s3Accepting none)) "us-east-1" "eu-west-1"
      "logs-2024").constructed = ["eu-west-1"] ∧
    (s3CreateBucketRun (s3ConfigYielding (s3Accepting none)) "us-east-1" "eu-west-1"
      "logs-2024").exitCode = 0 ∧
    (ec2CreateInstancesRun (configYielding (ec2Failing "RequestLimitExceeded")) "us-east-1" ""
      "ami-x" "t2.micro" "k" 1).exitCode ≠ 0 := by
  have hs3 := cli_region_and_exit_status.1 (s3ConfigYielding (s3Accepting none)) "" ""
    "logs-2024"
  have hs3b := cli_region_and_exit_status.1 (s3ConfigYielding (s3Accepting none)) "us-east-1"
    "eu-west-1" "logs-2024"
  have hec2 := cli_region_and_exit_status.2 (configYielding (ec2Failing "RequestLimitExceeded"))
    "us-east-1" "" "ami-x" "t2.micro" "k" 1
  obtain ⟨hcode, hcons, -, -, -⟩ := hs3.1 ⟨rfl, rfl⟩
  refine ⟨hcode, hcons, hs3b.2.1 (by decide) (by decide), ?_, ?_⟩
  · obtain ⟨-, -, -, hiff⟩ := hs3b.2.2.1 (s3Accepting none) (by decide) (by decide) rfl
    exact hiff.2 ⟨_, rfl, rfl⟩
  · obtain ⟨-, -, -, hiff⟩ := hec2.2.2.1 (ec2Failing "RequestLimitExceeded") (by decide)
      (by decide) (by decide) (by decide) rfl
    intro hzero
    obtain ⟨res, hres, hsucc⟩ := hiff.1 hzero
    have hp : ((EC2Service.CreateResource (configYielding (ec2Failing "RequestLimitExceeded"))
        { Region := "us-east-1", client := ec2Failing "RequestLimitExceeded" }
        [("image_id", Value.str "ami-x"), ("instance_type", Value.str "t2.micro"),
         ("key_name", Value.str "k"), ("count", Value.int 1),
         ("region", Value.str "us-east-1")]).result.map fun x => x.Success)
        = some false := by decide
    rw [show (if ("" : String) ≠ "" then "" else "us-east-1") = "us-east-1" from rfl] at hres
    rw [hres] at hp
    simp [hsucc] at hp

/-! ## C16: the order of the checks of the instance service -/

theorem assertString_none_of_not_str (o : Option Value)
    (h : ¬ ∃ v, o = some (Value.str v)) : assertString o = none := by
  cases ha : assertString o with
  | none => rfl
  | some v => exact absurd ⟨v, (assertString_some_iff _ _).1 ha⟩ h

/-- C16. `EC2Service.CreateResource` reports the first failing check in this order:
`image_id` is not a string, `instance_type` is not a string, `key_name` is not a string (each
with `invalid <field> parameter` / `<field> must be a string`), the resolved count is below 1
(`ValidationError`, `Count must be at least 1`), the client rebuild for a non-empty region
override fails (`ConfigurationError`), a required field is the empty string
(`ValidationError`); none of these requests reaches the provider. -/
theorem ec2_validation_order (load : String → Except String EC2Client) (e : EC2Service)
    (params : Params) :
    ((¬ ∃ v, params.lookup "image_id" = some (Value.str v)) →
      (EC2Service.CreateResource load e params).result
        = some { Success := false, Error := "invalid image_id parameter",
                 Message := "image_id must be a string" } ∧
      (EC2Service.CreateResource load e params).calls = []) ∧
    (∀ i, params.lookup "image_id" = some (Value.str i) →
      (¬ ∃ v, params.lookup "instance_type" = some (Value.str v)) →
      (EC2Service.CreateResource load e params).result
        = some { Success := false, Error := "invalid instance_type parameter",
                 Message := "instance_type must be a string" } ∧
      (EC2Service.CreateResource load e params).calls = []) ∧
    (∀ i t, params.lookup "image_id" = some (Value.str i) →
      params.lookup "instance_type" = some (Value.str t) →
      (¬ ∃ v, params.lookup "key_name" = some (Value.str v)) →
      (EC2Service.CreateResource load e params).result
        = some { Success := false, Error := "invalid key_name parameter",
                 Message := "key_name must be a string" } ∧
      (EC2Service.CreateResource load e params).calls = []) ∧
    (∀ i t k, params.lookup "image_id" = some (Value.str i) →
      params.lookup "instance_type" = some (Value.str t) →
      params.lookup "key_name" = some (Value.str k) →
      resolveCount params < 1 →
      (EC2Service.CreateResource load e params).result
        = some { Success := false, Error := "ValidationError",
                 Message := "Count must be at least 1" } ∧
      (EC2Service.CreateResource load e params).calls = []) ∧
    (∀ i t k region m, params.lookup "image_id" = some (Value.str i) →
      params.lookup "instance_type" = some (Value.str t) →
      params.lookup "key_name" = some (Value.str k) →
      1 ≤ resolveCount params →
      params.lookup "region" = some (Value.str region) → region ≠ "" →
      load region = .error m →
      (EC2Service.CreateResource load e params).result
        = some { Success := false, Error := "ConfigurationError",
                 Message := "Failed to configure AWS client for region " ++ region ++
                   ": " ++ m } ∧
      (EC2Service.CreateResource load e params).calls = []) ∧
    (∀ i t k, params.lookup "image_id" = some (Value.str i) →
      params.lookup "instance_type" = some (Value.str t) →
      params.lookup "key_name" = some (Value.str k) →
      1 ≤ resolveCount params →
      (∀ region, params.lookup "region" = some (Value.str region) → region ≠ "" →
        ∃ c, load region = .ok c) →
      (i = "" ∨ t = "" ∨ k = "") →
      ∃ r, (EC2Service.CreateResource load e params).result = some r ∧
        r.Success = false ∧ r.Error = "ValidationError" ∧
        (EC2Service.CreateResource load e params).calls = []) := by
  refine ⟨?_, ?_, ?_, ?_, ?_, ?_⟩
  · intro hno
    have hi := assertString_none_of_not_str _ hno
    unfold EC2Service.CreateResource
    simp only [hi, and_self]
  · intro i hi hno
    have hi2 := (assertString_some_iff _ _).2 hi
    have ht := assertString_none_of_not_str _ hno
    unfold EC2Service.CreateResource
    simp only [hi2, ht, and_self]
  · intro i t hi ht hno
    have hi2 := (assertString_some_iff _ _).2 hi
    have ht2 := (assertString_some_iff _ _).2 ht
    have hk := assertString_none_of_not_str _ hno
    unfold EC2Service.CreateResource
    simp only [hi2, ht2, hk, and_self]
  · intro i t k hi ht hk hc
    rw [ec2_count_rejected load e params i t k hi ht hk hc]
    exact ⟨rfl, rfl⟩
  · intro i t k region m hi ht hk hc hr hne hl
    have hi2 := (assertString_some_iff _ _).2 hi
    have ht2 := (assertString_some_iff _ _).2 ht
    have hk2 := (assertString_some_iff _ _).2 hk
    have hr2 := (assertString_some_iff _ _).2 hr
    unfold EC2Service.CreateResource
    simp only [hi2, ht2, hk2, not_lt.2 hc, if_false, hr2, ne_eq, hne, not_false_eq_true,
      if_true, hl, and_self]
  · intro i t k hi ht hk hc hcfg hempty
    obtain ⟨client, hout⟩ := ec2_create_eq_launch load e params i t k hi ht hk hc
      (fun region hreg hne => hcfg region ((assertString_some_iff _ _).1 hreg) hne)
    have hmiss : ∃ key ∈ ["image_id", "instance_type", "key_name"],
        paramMissing params key = true := by
      rcases hempty with h | h | h
      · exact ⟨"image_id", by simp, paramMissing_of_empty _ _ (h ▸ hi)⟩
      · exact ⟨"instance_type", by simp, paramMissing_of_empty _ _ (h ▸ ht)⟩
      · exact ⟨"key_name", by simp, paramMissing_of_empty _ _ (h ▸ hk)⟩
    obtain ⟨key, hkey, hkm⟩ := hmiss
    obtain ⟨msg, hv, -⟩ := validate_names_missing e.toBaseService params _ key hkey hkm
    rw [hout, ec2Launch_invalid _ _ _ _ _ _ _ _ msg hv]
    exact ⟨_, rfl, rfl, rfl, rfl⟩

theorem ec2_validation_order_witness :
    (EC2Service.CreateResource (configYielding (ec2Accepting []))
        { Region := "us-east-1", client := ec2Accepting [] }
        [("image_id", Value.str ""), ("instance_type", Value.str "t2.micro"),
         ("key_name", Value.str "k"), ("count", Value.int 0)]).result
      = some { Success := false, Error := "ValidationError",
               Message := "Count must be at least 1" } ∧
    (EC2Service.CreateResource (configYielding (ec2Accepting []))
        { Region := "us-east-1", client := ec2Accepting [] }
        [("image_id", Value.str ""), ("instance_type", Value.str "t2.micro"),
         ("key_name", Value.str "k"), ("count", Value.int 0)]).calls = [] :=
  (ec2_validation_order (configYielding (ec2Accepting []))
    { Region := "us-east-1", client := ec2Accepting [] }
    [("image_id", Value.str ""), ("instance_type", Value.str "t2.micro"),
     ("key_name", Value.str "k"), ("count", Value.int 0)]).2.2.2.1
    "" "t2.micro" "k" rfl rfl rfl (by decide)

end AwsResources
